import Mathlib

set_option maxRecDepth 100000

/-!
Shallow embedding of the Ztockly scalper core (indicators.py and signals.py).

Prices, volumes and oscillator values are rationals; a float NaN (or any
non-finite float) is modelled as `none` in an `Option ℚ`.  Pandas comparison
semantics (`NaN < x` is `False`) are reproduced by the `oLT`/`oLE`/`oGT`/`oGE`
helpers.  Bar series are lists of `Bar`, positionally aligned with the
oscillator series (all series share the bar index, as the spec's data model
prescribes).  The session classifier lives in a module that is an external
collaborator (spec section 6: "a session-classification function mapping
timestamp -> {OPENING, MIDDAY, POWER, OFF}"); it is passed to the engine as a
function argument.
-/

namespace Ztockly

/-- One OHLCV bar.  `ts` is the bar's timestamp label (the dataframe index). -/
structure Bar where
  ts : ℕ
  open_ : ℚ
  high : ℚ
  low : ℚ
  close : ℚ
  volume : ℚ
  deriving DecidableEq, Repr

/-- Pandas `a < b` on possibly-NaN scalars: False when either side is NaN. -/
def oLT : Option ℚ → Option ℚ → Bool
  | some a, some b => decide (a < b)
  | _, _ => false

/-- Pandas `a <= b` on possibly-NaN scalars. -/
def oLE : Option ℚ → Option ℚ → Bool
  | some a, some b => decide (a ≤ b)
  | _, _ => false

/-- Pandas `a > b` on possibly-NaN scalars. -/
def oGT : Option ℚ → Option ℚ → Bool
  | some a, some b => decide (b < a)
  | _, _ => false

/-- Pandas `a >= b` on possibly-NaN scalars. -/
def oGE : Option ℚ → Option ℚ → Bool
  | some a, some b => decide (b ≤ a)
  | _, _ => false

/-- `df.tail(k)`: the last `k` elements (all of them when `k ≥ length`). -/
def lastN (k : ℕ) (xs : List α) : List α := xs.drop (xs.length - k)

/-- Helper for `ffill`: carries the last seen value forward. -/
def ffillAux : Option ℚ → List (Option ℚ) → List (Option ℚ)
  | _, [] => []
  | prev, x :: xs =>
    match x with
    | some v => some v :: ffillAux (some v) xs
    | none => prev :: ffillAux prev xs

/-- Pandas `Series.ffill()`: forward-fill NaNs (leading NaNs stay NaN). -/
def ffill (xs : List (Option ℚ)) : List (Option ℚ) := ffillAux none xs

/-- `series.shift(k).iloc[-1]` on a NaN-free series: the value `k` before the
last one, `none` when the series is too short. -/
def sAt (xs : List ℚ) (k : ℕ) : Option ℚ :=
  if k < xs.length then xs.get? (xs.length - 1 - k) else none

/-- `series.shift(k).iloc[-1]` on a series that may contain NaNs. -/
def sAtO (xs : List (Option ℚ)) (k : ℕ) : Option ℚ :=
  match (if k < xs.length then xs.get? (xs.length - 1 - k) else none) with
  | some v => v
  | none => none

/-- Minimum of a list (`Series.min()`); junk value 0 on the empty list. -/
def minD : List ℚ → ℚ
  | [] => 0
  | x :: xs => xs.foldl min x

/-- Maximum of a list (`Series.max()`); junk value 0 on the empty list. -/
def maxD : List ℚ → ℚ
  | [] => 0
  | x :: xs => xs.foldl max x

/-- Insert into a sorted list (ascending). -/
def insertSorted (x : ℚ) : List ℚ → List ℚ
  | [] => [x]
  | y :: ys => if x ≤ y then x :: y :: ys else y :: insertSorted x ys

/-- Insertion sort, ascending. -/
def sortQ (xs : List ℚ) : List ℚ := xs.foldr insertSorted []

/-- Median as pandas computes it: middle element for odd length, mean of the
two middle elements for even length.  Junk value 0 on the empty list. -/
def medianD (xs : List ℚ) : ℚ :=
  let s := sortQ xs
  let n := s.length
  if n % 2 = 1 then s.getD (n / 2) 0
  else (s.getD (n / 2 - 1) 0 + s.getD (n / 2) 0) / 2

/-- Typical price `(high+low+close)/3` used by `vwap`. -/
def typical (b : Bar) : ℚ := (b.high + b.low + b.close) / 3

/-- `indicators.vwap`: cumulative (typical price × volume) over cumulative
volume; NaN (`none`) where the cumulative volume is exactly zero
(`.replace(0, np.nan)`). -/
def vwap (bars : List Bar) : List (Option ℚ) :=
  (List.range bars.length).map (fun i =>
    let pre := bars.take (i + 1)
    let den := (pre.map Bar.volume).sum
    if den = 0 then none
    else some ((pre.map (fun b => typical b * b.volume)).sum / den))

/-- True range per bar.  For the first bar `prev_close` is NaN, and pandas
`DataFrame.max(axis=1)` skips NaNs, leaving `|high - low|`. -/
def trList (bars : List Bar) : List ℚ :=
  (List.range bars.length).map (fun i =>
    match bars.get? i with
    | none => 0
    | some b =>
      match (if i = 0 then none else bars.get? (i - 1)) with
      | none => |b.high - b.low|
      | some pb => max |b.high - b.low| (max |b.high - pb.close| |b.low - pb.close|))

/-- `indicators.atr`: rolling mean of the true range over exactly `period`
bars (`min_periods=period`), NaN until `period` bars exist. -/
def atr (bars : List Bar) (period : ℕ) : List (Option ℚ) :=
  let tr := trList bars
  (List.range bars.length).map (fun i =>
    if i + 1 < period then none
    else some (((tr.drop (i + 1 - period)).take period).sum / (period : ℚ)))

/-- Helper for `ema`: one smoothing step per element. -/
def emaAux (a : ℚ) : ℚ → List ℚ → List ℚ
  | _, [] => []
  | prev, x :: xs =>
    let y := a * x + (1 - a) * prev
    y :: emaAux a y xs

/-- `indicators.ema`: `ewm(span=span, adjust=False).mean()`, i.e.
`y 0 = x 0` and `y i = α * x i + (1-α) * y (i-1)` with `α = 2/(span+1)`. -/
def ema (xs : List ℚ) (span : ℕ) : List ℚ :=
  match xs with
  | [] => []
  | x :: rest => x :: emaAux (2 / ((span : ℚ) + 1)) x rest

/-- `indicators.rolling_swing_lows`: position `i` is flagged when
`left ≤ i < length - right` and the value equals the minimum of the window
`[i-left, i+right]`. -/
def rolling_swing_lows (xs : List ℚ) (left right : ℕ) : List Bool :=
  (List.range xs.length).map (fun i =>
    if left ≤ i ∧ i + right < xs.length then
      decide (xs.getD i 0 = minD ((xs.drop (i - left)).take (left + right + 1)))
    else false)

/-- `indicators.rolling_swing_highs`: mirror of `rolling_swing_lows`. -/
def rolling_swing_highs (xs : List ℚ) (left right : ℕ) : List Bool :=
  (List.range xs.length).map (fun i =>
    if left ≤ i ∧ i + right < xs.length then
      decide (xs.getD i 0 = maxD ((xs.drop (i - left)).take (left + right + 1)))
    else false)

/-- `indicators.detect_fvg`: scan triplets `(i-2, i-1, i)`, keeping the most
recent bullish gap `low[i] > high[i-2]` (zone `(high[i-2], low[i])`) and the
most recent bearish gap `high[i] < low[i-2]` (zone `(high[i], low[i-2])`). -/
def detect_fvg (bars : List Bar) : Option (ℚ × ℚ) × Option (ℚ × ℚ) :=
  if bars.length < 3 then (none, none)
  else
    (List.range' 2 (bars.length - 2)).foldl
      (fun acc i =>
        let h := fun j => ((bars.map Bar.high).getD j 0)
        let l := fun j => ((bars.map Bar.low).getD j 0)
        let bull := if l i > h (i - 2) then some (h (i - 2), l i) else acc.1
        let bear := if h i < l (i - 2) then some (h i, l (i - 2)) else acc.2
        (bull, bear))
      (none, none)

/-- Scan `i = n-1, n-2, ..., 0`, returning the first `some`
(the Python loop `for i in range(n-1, -1, -1)` with early return). -/
def scanDesc (f : ℕ → Option β) : ℕ → Option β
  | 0 => none
  | n + 1 =>
    match f n with
    | some b => some b
    | none => scanDesc f n

/-- Does position `i` of the (windowed) bars qualify as a bullish order-block
candidate?  Mirrors the body of the `side == "bull"` loop in
`indicators.find_order_block`: a down candle whose (forward-filled) ATR is
finite (`some`) and nonzero, with some close in the next 1-3 bars strictly above
the candle's high and more than `1.0 * atr_i` above the candle's close. -/
def bullQual (d : List Bar) (a : List (Option ℚ)) (i : ℕ) : Bool :=
  match d.get? i with
  | none => false
  | some bi =>
    decide (bi.close < bi.open_) &&
      (match a.getD i none with
      | none => false
      | some q =>
        !decide (q = 0) &&
          (List.range' (i + 1) (min (i + 4) d.length - (i + 1))).any (fun j =>
            match d.get? j with
            | some bj => decide (bi.high < bj.close ∧ q < bj.close - bi.close)
            | none => false))

/-- Bearish mirror of `bullQual`: an up candle followed within 1-3 bars by a
close strictly below its low that is more than `1.0 * atr_i` below its close. -/
def bearQual (d : List Bar) (a : List (Option ℚ)) (i : ℕ) : Bool :=
  match d.get? i with
  | none => false
  | some bi =>
    decide (bi.open_ < bi.close) &&
      (match a.getD i none with
      | none => false
      | some q =>
        !decide (q = 0) &&
          (List.range' (i + 1) (min (i + 4) d.length - (i + 1))).any (fun j =>
            match d.get? j with
            | some bj => decide (bj.close < bi.low ∧ q < bi.close - bj.close)
            | none => false))

/-- The C6 claim's reading of the displacement test, written from the claim's
words for comparison with `bullQual`: the breakout close must move beyond the
candidate's extreme (its high) by more than the candidate ATR, i.e.
`bi.high + q < bj.close`.  The code (`bullQual`) instead requires the close to
be beyond the high while moving more than the ATR away from the candidate's
CLOSE. -/
def bullQualClaim (d : List Bar) (a : List (Option ℚ)) (i : ℕ) : Bool :=
  match d.get? i with
  | none => false
  | some bi =>
    decide (bi.close < bi.open_) &&
      (match a.getD i none with
      | none => false
      | some q =>
        (List.range' (i + 1) (min (i + 4) d.length - (i + 1))).any (fun j =>
          match d.get? j with
          | some bj => decide (bi.high + q < bj.close)
          | none => false))

/-- One step of the bullish backward scan: the returned zone is
`[min(low, open), max(low, open)]` of the candidate plus its index label. -/
def obCheckBull (d : List Bar) (a : List (Option ℚ)) (i : ℕ) :
    Option (Option ℚ × Option ℚ × Option ℕ) :=
  match d.get? i with
  | none => none
  | some bi =>
    if bullQual d a i then
      some (some (min bi.low bi.open_), some (max bi.low bi.open_), some bi.ts)
    else none

/-- One step of the bearish backward scan: zone `[min(open, high),
max(open, high)]` of the candidate plus its index label. -/
def obCheckBear (d : List Bar) (a : List (Option ℚ)) (i : ℕ) :
    Option (Option ℚ × Option ℚ × Option ℕ) :=
  match d.get? i with
  | none => none
  | some bi =>
    if bearQual d a i then
      some (some (min bi.open_ bi.high), some (max bi.open_ bi.high), some bi.ts)
    else none

/-- `indicators.find_order_block`.  The length guard applies to the series as
passed (before `tail(lookback)`); the ATR series is restricted to the window
and forward-filled (`reindex(df.index).ffill()`); the candidate scan runs
`i = len-4, ..., 0`. -/
def find_order_block (df : List Bar) (atr_series : List (Option ℚ))
    (side : String) (lookback : ℕ) : Option ℚ × Option ℚ × Option ℕ :=
  if df.length < 10 then (none, none, none)
  else if side = "bull" then
    match scanDesc (obCheckBull (lastN lookback df) (ffill (lastN lookback atr_series)))
        ((lastN lookback df).length - 3) with
    | some r => r
    | none => (none, none, none)
  else
    match scanDesc (obCheckBear (lastN lookback df) (ffill (lastN lookback atr_series)))
        ((lastN lookback df).length - 3) with
    | some r => r
    | none => (none, none, none)

/-- `indicators.in_zone`: `zone_low - buffer ≤ price ≤ zone_high + buffer`. -/
def in_zone (price zone_low zone_high buffer : ℚ) : Bool :=
  decide (zone_low - buffer ≤ price) && decide (price ≤ zone_high + buffer)

/-! ## signals.py -/

/-- One preset configuration (an entry of `signals.PRESETS`). -/
structure Preset where
  min_actionable_score : ℤ
  vol_multiplier : ℚ
  require_volume : ℤ
  require_macd_turn : ℤ
  require_vwap_event : ℤ
  require_rsi_event : ℤ
  deriving DecidableEq, Repr

/-- `PRESETS["Fast scalp"]`. -/
def fastScalpPreset : Preset := ⟨70, 115 / 100, 0, 1, 1, 1⟩

/-- `PRESETS["Cleaner signals"]`. -/
def cleanerSignalsPreset : Preset := ⟨80, 135 / 100, 1, 1, 1, 1⟩

/-- `PRESETS.get(mode, PRESETS["Cleaner signals"])`: dictionary lookup with
the "Cleaner signals" entry as the default for unknown keys. -/
def PRESETS_get (mode : String) : Preset :=
  if mode = "Fast scalp" then fastScalpPreset
  else if mode = "Cleaner signals" then cleanerSignalsPreset
  else cleanerSignalsPreset

/-- Column projection `df["close"]`. -/
def closesOf (w : List Bar) : List ℚ := w.map Bar.close

/-- Column projection `df["open"]`. -/
def opensOf (w : List Bar) : List ℚ := w.map Bar.open_

/-- Column projection `df["high"]`. -/
def highsOf (w : List Bar) : List ℚ := w.map Bar.high

/-- Column projection `df["low"]`. -/
def lowsOf (w : List Bar) : List ℚ := w.map Bar.low

/-- Column projection `df["volume"]`. -/
def volsOf (w : List Bar) : List ℚ := w.map Bar.volume

/-- `(close.shift(3) < vwap.shift(3)).iloc[-1] or (close.shift(5) < vwap.shift(5)).iloc[-1]`. -/
def wasBelowVwap (w : List Bar) : Bool :=
  oLT (sAt (closesOf w) 3) (sAtO (vwap w) 3) || oLT (sAt (closesOf w) 5) (sAtO (vwap w) 5)

/-- `close.iloc[-1] > vwap.iloc[-1] and close.shift(1).iloc[-1] <= vwap.shift(1).iloc[-1]`. -/
def reclaimVwap (w : List Bar) : Bool :=
  oGT (sAt (closesOf w) 0) (sAtO (vwap w) 0) && oLE (sAt (closesOf w) 1) (sAtO (vwap w) 1)

/-- Mirror of `wasBelowVwap`. -/
def wasAboveVwap (w : List Bar) : Bool :=
  oGT (sAt (closesOf w) 3) (sAtO (vwap w) 3) || oGT (sAt (closesOf w) 5) (sAtO (vwap w) 5)

/-- Mirror of `reclaimVwap`. -/
def rejectVwap (w : List Bar) : Bool :=
  oLT (sAt (closesOf w) 0) (sAtO (vwap w) 0) && oGE (sAt (closesOf w) 1) (sAtO (vwap w) 1)

/-- `rsi_snap`: RSI-5 crosses upward through 30 or through 25. -/
def rsiSnap (rf : List (Option ℚ)) : Bool :=
  (oGE (sAtO rf 0) (some 30) && oLT (sAtO rf 1) (some 30)) ||
    (oGE (sAtO rf 0) (some 25) && oLT (sAtO rf 1) (some 25))

/-- `rsi_downshift`: RSI-5 crosses downward through 70 or through 75. -/
def rsiDownshift (rf : List (Option ℚ)) : Bool :=
  (oLE (sAtO rf 0) (some 70) && oGT (sAtO rf 1) (some 70)) ||
    (oLE (sAtO rf 0) (some 75) && oGT (sAtO rf 1) (some 75))

/-- `macd_turn_up`: histogram rising for two consecutive steps. -/
def macdTurnUp (mh : List (Option ℚ)) : Bool :=
  oGT (sAtO mh 0) (sAtO mh 1) && oGT (sAtO mh 1) (sAtO mh 2)

/-- `macd_turn_down`: histogram falling for two consecutive steps. -/
def macdTurnDown (mh : List (Option ℚ)) : Bool :=
  oLT (sAtO mh 0) (sAtO mh 1) && oLT (sAtO mh 1) (sAtO mh 2)

/-- `vol.rolling(30, min_periods=10).median().iloc[-1]`: median of the last
(up to) 30 volumes, NaN when fewer than 10 are available. -/
def lastVolMedian (vols : List ℚ) : Option ℚ :=
  let wnd := lastN 30 vols
  if wnd.length < 10 then none else some (medianD wnd)

/-- `vol_ok`: final volume at least `vol_multiplier` times the trailing median
(False when the median is NaN). -/
def volOk (w : List Bar) (mult : ℚ) : Bool :=
  match lastVolMedian (volsOf w) with
  | none => false
  | some m => oGE (sAt (volsOf w) 0) (some (mult * m))

/-- `df.loc[swing_low_mask, "low"]`: lows at flagged swing-low positions. -/
def flaggedLows (w : List Bar) : List ℚ :=
  ((lowsOf w).zip (rolling_swing_lows (lowsOf w) 3 3)).filterMap
    (fun p => if p.2 then some p.1 else none)

/-- `df.loc[swing_high_mask, "high"]`: highs at flagged swing-high positions. -/
def flaggedHighs (w : List Bar) : List ℚ :=
  ((highsOf w).zip (rolling_swing_highs (highsOf w) 3 3)).filterMap
    (fun p => if p.2 then some p.1 else none)

/-- `recent_swing_low`: the most recent flagged swing low (the last entry of
the `.tail(6)`), falling back to the 12-bar trailing minimum. -/
def recentSwingLow (w : List Bar) : ℚ :=
  match (lastN 6 (flaggedLows w)).getLast? with
  | some x => x
  | none => minD (lastN 12 (lowsOf w))

/-- `recent_swing_high`: mirror of `recentSwingLow`. -/
def recentSwingHigh (w : List Bar) : ℚ :=
  match (lastN 6 (flaggedHighs w)).getLast? with
  | some x => x
  | none => maxD (lastN 12 (highsOf w))

/-- `prior_swing_low`: same flagged value, falling back to the 30-bar
trailing minimum. -/
def priorSwingLow (w : List Bar) : ℚ :=
  match (lastN 6 (flaggedLows w)).getLast? with
  | some x => x
  | none => minD (lastN 30 (lowsOf w))

/-- `prior_swing_high`: mirror of `priorSwingLow`. -/
def priorSwingHigh (w : List Bar) : ℚ :=
  match (lastN 6 (flaggedHighs w)).getLast? with
  | some x => x
  | none => maxD (lastN 30 (highsOf w))

/-- `atr_last`: final ATR-14 value, 0.0 when it is not finite. -/
def atrLastOf (w : List Bar) : ℚ :=
  match (atr w 14).getLast? with
  | some (some a) => a
  | _ => 0

/-- `buffer = 0.25 * atr_last if atr_last else 0.0`. -/
def bufferOf (w : List Bar) : ℚ :=
  if atrLastOf w = 0 then 0 else 25 / 100 * atrLastOf w

/-- `trend_long_ok`: `close >= ema20 >= ema50` on the final bar. -/
def trendLongOk (w : List Bar) : Bool :=
  oGE (sAt (closesOf w) 0) (sAt (ema (closesOf w) 20) 0) &&
    oGE (sAt (ema (closesOf w) 20) 0) (sAt (ema (closesOf w) 50) 0)

/-- `trend_short_ok`: `close <= ema20 <= ema50` on the final bar. -/
def trendShortOk (w : List Bar) : Bool :=
  oLE (sAt (closesOf w) 0) (sAt (ema (closesOf w) 20) 0) &&
    oLE (sAt (ema (closesOf w) 20) 0) (sAt (ema (closesOf w) 50) 0)

/-- `bull_sweep`: the final low undercuts the prior swing low while the final
close is back above it. -/
def bullSweep (w : List Bar) : Bool :=
  oLT (sAt (lowsOf w) 0) (some (priorSwingLow w)) &&
    oGT (sAt (closesOf w) 0) (some (priorSwingLow w))

/-- `bear_sweep`: mirror of `bullSweep`. -/
def bearSweep (w : List Bar) : Bool :=
  oGT (sAt (highsOf w) 0) (some (priorSwingHigh w)) &&
    oLT (sAt (closesOf w) 0) (some (priorSwingHigh w))

/-- `detect_fvg(df.tail(60))`. -/
def fvgPairOf (w : List Bar) : Option (ℚ × ℚ) × Option (ℚ × ℚ) :=
  detect_fvg (lastN 60 w)

/-- `find_order_block(df, atr14, side="bull", lookback=35)`. -/
def obBullOf (w : List Bar) : Option ℚ × Option ℚ × Option ℕ :=
  find_order_block w (atr w 14) "bull" 35

/-- `find_order_block(df, atr14, side="bear", lookback=35)`. -/
def obBearOf (w : List Bar) : Option ℚ × Option ℚ × Option ℕ :=
  find_order_block w (atr w 14) "bear" 35

/-- `last_price` within the window (`close.iloc[-1]`; junk 0 when empty). -/
def lastCloseD (w : List Bar) : ℚ := (closesOf w).getLastD 0

/-- `bull_ob_retest`: last price inside the bullish order-block zone widened
by the quarter-ATR buffer. -/
def bullObRetest (w : List Bar) : Bool :=
  match obBullOf w with
  | (some lo, some hi, _) => in_zone (lastCloseD w) lo hi (bufferOf w)
  | _ => false

/-- `bear_ob_retest`: mirror of `bullObRetest`. -/
def bearObRetest (w : List Bar) : Bool :=
  match obBearOf w with
  | (some lo, some hi, _) => in_zone (lastCloseD w) lo hi (bufferOf w)
  | _ => false

/-- `displacement`: truthy `atr_last` and final-bar range at least
`1.5 * atr_last`. -/
def displacementOf (w : List Bar) : Bool :=
  let a := atrLastOf w
  !decide (a = 0) &&
    decide (3 / 2 * a ≤ (highsOf w).getLastD 0 - (lowsOf w).getLastD 0)

/-- `df["low"].tail(12).iloc[-1] > df["low"].tail(12).min()`. -/
def higherLowMicro (w : List Bar) : Bool :=
  let t := lastN 12 (lowsOf w)
  decide (minD t < t.getLastD 0)

/-- `df["high"].tail(12).iloc[-1] < df["high"].tail(12).max()`. -/
def lowerHighMicro (w : List Bar) : Bool :=
  let t := lastN 12 (highsOf w)
  decide (t.getLastD 0 < maxD t)

/-- Values stored in the `extras` diagnostics mapping. -/
inductive ExtraVal where
  | b (x : Bool)
  | q (x : ℚ)
  | z (x : Option (ℚ × ℚ))
  | ob (x : Option ℚ × Option ℚ × Option ℕ)
  deriving DecidableEq, Repr

/-- The `extras` dictionary, in insertion order (signals.py lines 139-173). -/
def extrasOf (w : List Bar) : List (String × ExtraVal) :=
  [("ema20", ExtraVal.q ((ema (closesOf w) 20).getLastD 0)),
   ("ema50", ExtraVal.q ((ema (closesOf w) 50).getLastD 0)),
   ("trend_long_ok", ExtraVal.b (trendLongOk w)),
   ("trend_short_ok", ExtraVal.b (trendShortOk w)),
   ("prior_swing_high", ExtraVal.q (priorSwingHigh w)),
   ("prior_swing_low", ExtraVal.q (priorSwingLow w)),
   ("bull_liquidity_sweep", ExtraVal.b (bullSweep w)),
   ("bear_liquidity_sweep", ExtraVal.b (bearSweep w)),
   ("bull_fvg", ExtraVal.z (fvgPairOf w).1),
   ("bear_fvg", ExtraVal.z (fvgPairOf w).2),
   ("bull_ob", ExtraVal.ob (obBullOf w)),
   ("bear_ob", ExtraVal.ob (obBearOf w)),
   ("bull_ob_retest", ExtraVal.b (bullObRetest w)),
   ("bear_ob_retest", ExtraVal.b (bearObRetest w)),
   ("displacement", ExtraVal.b (displacementOf w)),
   ("atr14", ExtraVal.q (atrLastOf w))]

/-- The long-side weighted rules that fired, in source order (basic rules
first, then the pro-mode additions); each entry is (points, reason). -/
def longRules (w : List Bar) (rf rs mh : List (Option ℚ)) (cfg : Preset)
    (pro : Bool) : List (ℤ × String) :=
  (if wasBelowVwap w && reclaimVwap w then [((35 : ℤ), "VWAP reclaim")] else []) ++
    (if rsiSnap rf && oLT (sAtO rs 0) (some 60) then
      [((20 : ℤ), "RSI-5 snapback (RSI-14 ok)")] else []) ++
    (if macdTurnUp mh then [((20 : ℤ), "MACD hist turning up")] else []) ++
    (if volOk w cfg.vol_multiplier then [((15 : ℤ), "Volume confirmation")] else []) ++
    (if higherLowMicro w then [((10 : ℤ), "Higher-low micro structure")] else []) ++
    (if pro then
      (if bullSweep w then [((20 : ℤ), "Liquidity sweep (low)")] else []) ++
        (if bullObRetest w then [((15 : ℤ), "Bullish order block retest")] else []) ++
        (if (fvgPairOf w).1.isSome then [((10 : ℤ), "Bullish FVG present")] else [])
    else [])

/-- The short-side weighted rules that fired, in source order. -/
def shortRules (w : List Bar) (rf rs mh : List (Option ℚ)) (cfg : Preset)
    (pro : Bool) : List (ℤ × String) :=
  (if wasAboveVwap w && rejectVwap w then [((35 : ℤ), "VWAP rejection")] else []) ++
    (if rsiDownshift rf && oGT (sAtO rs 0) (some 40) then
      [((20 : ℤ), "RSI-5 downshift (RSI-14 ok)")] else []) ++
    (if macdTurnDown mh then [((20 : ℤ), "MACD hist turning down")] else []) ++
    (if volOk w cfg.vol_multiplier then [((15 : ℤ), "Volume confirmation")] else []) ++
    (if lowerHighMicro w then [((10 : ℤ), "Lower-high micro structure")] else []) ++
    (if pro then
      (if bearSweep w then [((20 : ℤ), "Liquidity sweep (high)")] else []) ++
        (if bearObRetest w then [((15 : ℤ), "Bearish order block retest")] else []) ++
        (if (fvgPairOf w).2.isSome then [((10 : ℤ), "Bearish FVG present")] else [])
    else [])

/-- `long_points` after the pro displacement bonus and the pro trend penalty
(`max(0, long_points - 15)` when trend alignment and the VWAP reclaim are both
missing). -/
def longPointsOf (w : List Bar) (rf rs mh : List (Option ℚ)) (cfg : Preset)
    (pro : Bool) : ℤ :=
  let base := ((longRules w rf rs mh cfg pro).map Prod.fst).sum +
    (if pro && displacementOf w then 5 else 0)
  if pro && !trendLongOk w && !(wasBelowVwap w && reclaimVwap w) then
    max 0 (base - 15)
  else base

/-- `short_points` after the pro displacement bonus and the pro trend penalty. -/
def shortPointsOf (w : List Bar) (rf rs mh : List (Option ℚ)) (cfg : Preset)
    (pro : Bool) : ℤ :=
  let base := ((shortRules w rf rs mh cfg pro).map Prod.fst).sum +
    (if pro && displacementOf w then 5 else 0)
  if pro && !trendShortOk w && !(wasAboveVwap w && rejectVwap w) then
    max 0 (base - 15)
  else base

/-- `long_reasons`. -/
def longReasonsOf (w : List Bar) (rf rs mh : List (Option ℚ)) (cfg : Preset)
    (pro : Bool) : List String :=
  (longRules w rf rs mh cfg pro).map Prod.snd

/-- `short_reasons`. -/
def shortReasonsOf (w : List Bar) (rf rs mh : List (Option ℚ)) (cfg : Preset)
    (pro : Bool) : List String :=
  (shortRules w rf rs mh cfg pro).map Prod.snd

/-- The VWAP reclaim-or-rejection event tested by the first requirement gate. -/
def vwapEventB (w : List Bar) : Bool :=
  (wasBelowVwap w && reclaimVwap w) || (wasAboveVwap w && rejectVwap w)

/-- The RSI event tested by the second requirement gate. -/
def rsiEventB (rf : List (Option ℚ)) : Bool := rsiSnap rf || rsiDownshift rf

/-- The MACD event tested by the third requirement gate. -/
def macdEventB (mh : List (Option ℚ)) : Bool := macdTurnUp mh || macdTurnDown mh

/-- The pro-mode liquidity-sweep / order-block-retest trigger. -/
def proTriggerB (w : List Bar) : Bool :=
  bullSweep w || bearSweep w || bullObRetest w || bearObRetest w

/-- The session allow-flag test (`allowed` in the source). -/
def sessionAllowedB (session : String) (allow_opening allow_midday allow_power : Bool) :
    Bool :=
  ((session == "OPENING") && allow_opening) ||
    ((session == "MIDDAY") && allow_midday) ||
    ((session == "POWER") && allow_power)

/-- The result record (`signals.SignalResult`).  `timestamp` is the bar label
(`None` only on the insufficient-data path). -/
structure SignalResult where
  symbol : String
  bias : String
  setup_score : ℤ
  reason : String
  entry : Option ℚ
  stop : Option ℚ
  target_1r : Option ℚ
  target_2r : Option ℚ
  last_price : Option ℚ
  timestamp : Option ℕ
  session : String
  extras : List (String × ExtraVal)
  deriving DecidableEq, Repr

/-- The engine body after the sufficiency and session gates (signals.py lines
106-255): scoring, the hard-requirement gates, the decision, and the level
derivation.  `df` is the lookback window, `rf`/`rs`/`mh` the window-aligned
forward-filled oscillators, `last_price`/`last_ts`/`session` the values
computed from the final window bar. -/
def scalp_main (symbol : String) (df : List Bar) (rf rs mh : List (Option ℚ))
    (cfg : Preset) (pro_mode : Bool) (last_price : ℚ) (last_ts : ℕ)
    (session : String) : SignalResult :=
  let extras := extrasOf df
  let long_points := longPointsOf df rf rs mh cfg pro_mode
  let long_reasons := longReasonsOf df rf rs mh cfg pro_mode
  let short_points := shortPointsOf df rf rs mh cfg pro_mode
  let short_reasons := shortReasonsOf df rf rs mh cfg pro_mode
  if cfg.require_vwap_event = 1 ∧ vwapEventB df = false then
    ⟨symbol, "NEUTRAL", max long_points short_points,
      "No VWAP reclaim/rejection event",
      none, none, none, none, some last_price, some last_ts, session, extras⟩
  else if cfg.require_rsi_event = 1 ∧ rsiEventB rf = false then
    ⟨symbol, "NEUTRAL", max long_points short_points,
      "No RSI-5 snap/downshift event",
      none, none, none, none, some last_price, some last_ts, session, extras⟩
  else if cfg.require_macd_turn = 1 ∧ macdEventB mh = false then
    ⟨symbol, "NEUTRAL", max long_points short_points,
      "No MACD histogram turn event",
      none, none, none, none, some last_price, some last_ts, session, extras⟩
  else if cfg.require_volume = 1 ∧ volOk df cfg.vol_multiplier = false then
    ⟨symbol, "NEUTRAL", max long_points short_points,
      "No volume confirmation",
      none, none, none, none, some last_price, some last_ts, session, extras⟩
  else if pro_mode = true ∧ proTriggerB df = false then
    ⟨symbol, "NEUTRAL", max long_points short_points,
      "Pro mode: no liquidity sweep / OB retest trigger",
      none, none, none, none, some last_price, some last_ts, session, extras⟩
  else
    if cfg.min_actionable_score ≤ long_points ∧ short_points < long_points then
      let entry := last_price
      let stop := min (recentSwingLow df)
        (last_price - max (atrLastOf df) 0 * (8 / 10))
      let risk := max (entry - stop) (1 / 100)
      ⟨symbol, "LONG", min 100 long_points,
        String.intercalate ", " (long_reasons.take 6),
        some entry, some stop, some (entry + risk), some (entry + 2 * risk),
        some last_price, some last_ts, session, extras⟩
    else if cfg.min_actionable_score ≤ short_points ∧ long_points < short_points then
      let entry := last_price
      let stop := max (recentSwingHigh df)
        (last_price + max (atrLastOf df) 0 * (8 / 10))
      let risk := max (stop - entry) (1 / 100)
      ⟨symbol, "SHORT", min 100 short_points,
        String.intercalate ", " (short_reasons.take 6),
        some entry, some stop, some (entry - risk), some (entry - 2 * risk),
        some last_price, some last_ts, session, extras⟩
    else
      ⟨symbol, "NEUTRAL", max long_points short_points,
        "LongScore=" ++ toString long_points ++ " (" ++
          String.intercalate ", " long_reasons ++ "); ShortScore=" ++
          toString short_points ++ " (" ++
          String.intercalate ", " short_reasons ++ ")",
        none, none, none, none, some last_price, some last_ts, session, extras⟩

/-- `compute_scalp_signal` with the preset already looked up.  Returns `none`
exactly where the Python raises (indexing `df.index[-1]` on an empty window,
possible only when `lookback_bars = 0`); every other path returns a result. -/
def scalp_core (symbol : String) (ohlcv : List Bar)
    (rsi_fast rsi_slow macd_hist : List (Option ℚ)) (cfg : Preset)
    (pro_mode : Bool) (allow_opening allow_midday allow_power : Bool)
    (lookback_bars : ℕ) (classify_session : ℕ → String) : Option SignalResult :=
  if ohlcv.length < 60 then
    some ⟨symbol, "NEUTRAL", 0, "Not enough data",
      none, none, none, none, none, none, "OFF", []⟩
  else
    let df := lastN lookback_bars ohlcv
    let rf := ffill (lastN lookback_bars rsi_fast)
    let rs := ffill (lastN lookback_bars rsi_slow)
    let mh := ffill (lastN lookback_bars macd_hist)
    match df.getLast? with
    | none => none
    | some lastBar =>
      let last_ts := lastBar.ts
      let session := classify_session last_ts
      let last_price := lastBar.close
      if !sessionAllowedB session allow_opening allow_midday allow_power then
        some ⟨symbol, "NEUTRAL", 0, "Filtered by time-of-day (" ++ session ++ ")",
          none, none, none, none, some last_price, some last_ts, session, []⟩
      else
        some (scalp_main symbol df rf rs mh cfg pro_mode last_price last_ts session)

/-- `signals.compute_scalp_signal`: resolve the preset for `mode` and run the
engine. -/
def compute_scalp_signal (symbol : String) (ohlcv : List Bar)
    (rsi_fast rsi_slow macd_hist : List (Option ℚ)) (mode : String)
    (pro_mode : Bool) (allow_opening allow_midday allow_power : Bool)
    (lookback_bars : ℕ) (classify_session : ℕ → String) : Option SignalResult :=
  scalp_core symbol ohlcv rsi_fast rsi_slow macd_hist (PRESETS_get mode)
    pro_mode allow_opening allow_midday allow_power lookback_bars classify_session

/-! ## Concrete inputs used by witnesses and counterexamples -/

/-- A flat bar with timestamp `i`, all prices 100, volume 100. -/
def flatBar (i : ℕ) : Bar := ⟨i, 100, 100, 100, 100, 100⟩

/-- 60 flat bars: enough data, no events. -/
def flatBars60 : List Bar := (List.range 60).map flatBar

/-- A 60-bar series engineered to fire every long-side basic event on the
final bar: 30 bars at 110 anchor VWAP high, 29 bars at 100 sit below it, and
the final bar (low 99, close 108, volume 300) reclaims VWAP. -/
def barsLong : List Bar :=
  (List.range 30).map (fun i => ⟨i, 110, 110, 110, 110, 100⟩) ++
    (List.range 29).map (fun i => ⟨30 + i, 100, 100, 100, 100, 100⟩) ++
    [⟨59, 100, 109, 99, 108, 300⟩]

/-- Fast RSI for `barsLong`: flat 50, then 24 -> 31 across the last step. -/
def rsiFastLong : List (Option ℚ) :=
  (List.range 58).map (fun _ => some 50) ++ [some 24, some 31]

/-- Slow RSI: flat 50. -/
def rsiSlowFlat : List (Option ℚ) := List.replicate 60 (some 50)

/-- MACD histogram rising two steps into the final bar. -/
def macdHistUp : List (Option ℚ) :=
  (List.range 57).map (fun _ => some 0) ++ [some (-1), some (-1 / 2), some (1 / 2)]

/-- Session classifier that always answers OPENING. -/
def classifyOpening : ℕ → String := fun _ => "OPENING"

/-- Session classifier that always answers OFF. -/
def classifyOff : ℕ → String := fun _ => "OFF"

/-- Like `barsLong` but with a swing undercut at bar 57 (low 90) and a final
bar whose low 98 sweeps the prior swing low 100: in pro mode the long side
scores 35+20+15+10+20+5 = 105 while no RSI event fires. -/
def barsPro : List Bar :=
  (List.range 30).map (fun i => ⟨i, 110, 110, 110, 110, 100⟩) ++
    (List.range 27).map (fun i => ⟨30 + i, 100, 100, 100, 100, 100⟩) ++
    [⟨57, 100, 100, 90, 100, 100⟩, ⟨58, 100, 100, 100, 100, 100⟩,
      ⟨59, 100, 109, 98, 108, 300⟩]

/-- Flat fast RSI for `barsPro`: no snap, no downshift. -/
def rsiFastFlat : List (Option ℚ) := List.replicate 60 (some 50)

/-- Ten bars for the order-block analysis: the only down candle is bar 6
(open 10, close 5, high 10, low 5); bar 7 closes at 10.5, which is beyond
bar 6's high and 5.5 above its close, but only 0.5 beyond its high. -/
def obBars : List Bar :=
  (List.range 6).map (fun i => ⟨i, 10, 23 / 2, 19 / 2, 11, 1⟩) ++
    [⟨6, 10, 10, 5, 5, 1⟩, ⟨7, 10, 53 / 5, 9, 21 / 2, 1⟩,
      ⟨8, 10, 11, 19 / 2, 21 / 2, 1⟩, ⟨9, 10, 11, 19 / 2, 21 / 2, 1⟩]

/-- A constant ATR series (value 2) for `obBars`. -/
def obAtr : List (Option ℚ) := List.replicate 10 (some 2)

/-- The final bar of `barsLong`. -/
def barsLongLast : Bar := ⟨59, 100, 109, 99, 108, 300⟩

/-- A malformed bar whose close (100) lies far above its high (1). -/
def vwapBadBar : Bar := ⟨0, 1, 1, 0, 100, 1⟩

/-- A well-formed bar (low 1 <= close 3/2 <= high 2, volume 5). -/
def vwapGoodBar : Bar := ⟨0, 1, 2, 1, 3 / 2, 5⟩

/-! ## Helper lemmas -/

/-- The session gate cannot pass when the classifier answers OFF, whatever
the allow flags are. -/
lemma sessionAllowedB_off (ao am ap : Bool) : sessionAllowedB "OFF" ao am ap = false := by
  cases ao <;> cases am <;> cases ap <;> with_unfolding_all rfl

/-- Unknown modes resolve to the "Cleaner signals" preset. -/
lemma PRESETS_get_default (mode : String) (h1 : mode ≠ "Fast scalp")
    (h2 : mode ≠ "Cleaner signals") :
    PRESETS_get mode = PRESETS_get "Cleaner signals" := by
  unfold PRESETS_get
  rw [if_neg h1, if_neg h2]
  with_unfolding_all rfl

/-- Every true-range value is nonnegative. -/
lemma trList_nonneg (w : List Bar) : ∀ x ∈ trList w, 0 ≤ x := by
  intro x hx
  unfold trList at hx
  rw [List.mem_map] at hx
  obtain ⟨i, -, rfl⟩ := hx
  cases h1 : w.get? i with
  | none => simp only [h1]; exact le_refl 0
  | some b =>
    cases h2 : (if i = 0 then none else w.get? (i - 1)) with
    | none => simp only [h1, h2]; exact abs_nonneg _
    | some pb =>
      simp only [h1, h2]
      exact le_trans (abs_nonneg _) (le_max_left _ _)

/-- Every defined ATR value is nonnegative. -/
lemma atr_value_nonneg (w : List Bar) (p : ℕ) {x : Option ℚ} (hx : x ∈ atr w p) :
    ∀ a : ℚ, x = some a → 0 ≤ a := by
  intro a ha
  unfold atr at hx
  rw [List.mem_map] at hx
  obtain ⟨i, -, rfl⟩ := hx
  split at ha
  · exact Option.noConfusion ha
  · rw [Option.some.injEq] at ha
    subst ha
    refine div_nonneg (List.sum_nonneg ?_) (by positivity)
    intro y hy
    exact trList_nonneg w y (List.mem_of_mem_drop (List.mem_of_mem_take hy))

/-- `atr_last` is nonnegative (0 when ATR is undefined at the final bar). -/
lemma atrLastOf_nonneg (w : List Bar) : 0 ≤ atrLastOf w := by
  unfold atrLastOf
  cases hg : (atr w 14).getLast? with
  | none => exact le_refl 0
  | some x =>
    cases x with
    | none => exact le_refl 0
    | some a =>
      exact atr_value_nonneg w 14
        (List.mem_of_mem_getLast? (Option.mem_def.mpr hg)) a rfl

/-- Shape analysis for `compute_scalp_signal`: every `some` result is either
one of the NEUTRAL early returns or the value of `scalp_main` on the window. -/
lemma compute_result_cases (symbol : String) (ohlcv : List Bar)
    (rf rs mh : List (Option ℚ)) (mode : String) (pro ao am ap : Bool)
    (lb : ℕ) (classify : ℕ → String) (r : SignalResult)
    (h : compute_scalp_signal symbol ohlcv rf rs mh mode pro ao am ap lb classify =
      some r) :
    r.bias = "NEUTRAL" ∨
      ∃ lbar, (lastN lb ohlcv).getLast? = some lbar ∧
        r = scalp_main symbol (lastN lb ohlcv) (ffill (lastN lb rf))
          (ffill (lastN lb rs)) (ffill (lastN lb mh)) (PRESETS_get mode) pro
          lbar.close lbar.ts (classify lbar.ts) := by
  simp only [compute_scalp_signal, scalp_core] at h
  split at h
  · rw [Option.some.injEq] at h
    subst h
    left
    rfl
  · split at h
    · exact Option.noConfusion h
    · rename_i lbar heq
      split at h
      · rw [Option.some.injEq] at h
        subst h
        left
        rfl
      · rw [Option.some.injEq] at h
        right
        exact ⟨lbar, heq, h.symm⟩

/-- When `scalp_main` answers LONG, its level fields are exactly the source's
formulas: entry is the last price, the stop is the swing/ATR minimum, and the
targets are one and two risk units above the entry. -/
lemma scalp_main_long (symbol : String) (df : List Bar) (rf rs mh : List (Option ℚ))
    (cfg : Preset) (pro : Bool) (lp : ℚ) (lt : ℕ) (sess : String) (r : SignalResult)
    (h : scalp_main symbol df rf rs mh cfg pro lp lt sess = r)
    (hb : r.bias = "LONG") :
    r.entry = some lp ∧
      r.stop = some (min (recentSwingLow df) (lp - max (atrLastOf df) 0 * (8 / 10))) ∧
      r.target_1r = some (lp +
        max (lp - min (recentSwingLow df) (lp - max (atrLastOf df) 0 * (8 / 10)))
          (1 / 100)) ∧
      r.target_2r = some (lp +
        2 * max (lp - min (recentSwingLow df) (lp - max (atrLastOf df) 0 * (8 / 10)))
          (1 / 100)) := by
  simp only [scalp_main] at h
  repeat' split at h
  all_goals subst h
  all_goals try (simp at hb)
  exact ⟨rfl, rfl, rfl, rfl⟩

/-- When `scalp_main` answers SHORT, its level fields mirror the LONG case
with the sign flipped. -/
lemma scalp_main_short (symbol : String) (df : List Bar) (rf rs mh : List (Option ℚ))
    (cfg : Preset) (pro : Bool) (lp : ℚ) (lt : ℕ) (sess : String) (r : SignalResult)
    (h : scalp_main symbol df rf rs mh cfg pro lp lt sess = r)
    (hb : r.bias = "SHORT") :
    r.entry = some lp ∧
      r.stop = some (max (recentSwingHigh df) (lp + max (atrLastOf df) 0 * (8 / 10))) ∧
      r.target_1r = some (lp -
        max (max (recentSwingHigh df) (lp + max (atrLastOf df) 0 * (8 / 10)) - lp)
          (1 / 100)) ∧
      r.target_2r = some (lp -
        2 * max (max (recentSwingHigh df) (lp + max (atrLastOf df) 0 * (8 / 10)) - lp)
          (1 / 100)) := by
  simp only [scalp_main] at h
  repeat' split at h
  all_goals subst h
  all_goals try (simp at hb)
  exact ⟨rfl, rfl, rfl, rfl⟩

/-- The decision stage: once every enabled hard-requirement gate passes,
`scalp_main` answers LONG exactly when the long total reaches the preset
threshold and strictly beats the short total, SHORT in the mirror case, and
otherwise NEUTRAL with the reason string that enumerates both sides'
contributing rules and totals. -/
lemma scalp_main_decision (symbol : String) (df : List Bar)
    (rf rs mh : List (Option ℚ)) (cfg : Preset) (pro : Bool) (lp : ℚ) (lt : ℕ)
    (sess : String)
    (hv : cfg.require_vwap_event = 1 → vwapEventB df = true)
    (hrs : cfg.require_rsi_event = 1 → rsiEventB rf = true)
    (hm : cfg.require_macd_turn = 1 → macdEventB mh = true)
    (hvol : cfg.require_volume = 1 → volOk df cfg.vol_multiplier = true)
    (hpro : pro = true → proTriggerB df = true) :
    ((scalp_main symbol df rf rs mh cfg pro lp lt sess).bias = "LONG" ↔
      (cfg.min_actionable_score ≤ longPointsOf df rf rs mh cfg pro ∧
        shortPointsOf df rf rs mh cfg pro < longPointsOf df rf rs mh cfg pro)) ∧
    ((scalp_main symbol df rf rs mh cfg pro lp lt sess).bias = "SHORT" ↔
      (cfg.min_actionable_score ≤ shortPointsOf df rf rs mh cfg pro ∧
        longPointsOf df rf rs mh cfg pro < shortPointsOf df rf rs mh cfg pro)) ∧
    (¬(cfg.min_actionable_score ≤ longPointsOf df rf rs mh cfg pro ∧
        shortPointsOf df rf rs mh cfg pro < longPointsOf df rf rs mh cfg pro) →
      ¬(cfg.min_actionable_score ≤ shortPointsOf df rf rs mh cfg pro ∧
        longPointsOf df rf rs mh cfg pro < shortPointsOf df rf rs mh cfg pro) →
      (scalp_main symbol df rf rs mh cfg pro lp lt sess).bias = "NEUTRAL" ∧
      (scalp_main symbol df rf rs mh cfg pro lp lt sess).reason =
        "LongScore=" ++ toString (longPointsOf df rf rs mh cfg pro) ++ " (" ++
          String.intercalate ", " (longReasonsOf df rf rs mh cfg pro) ++
          "); ShortScore=" ++ toString (shortPointsOf df rf rs mh cfg pro) ++ " (" ++
          String.intercalate ", " (shortReasonsOf df rf rs mh cfg pro) ++ ")") := by
  simp only [scalp_main]
  rw [if_neg (fun hc => Bool.noConfusion ((hv hc.1).symm.trans hc.2))]
  rw [if_neg (fun hc => Bool.noConfusion ((hrs hc.1).symm.trans hc.2))]
  rw [if_neg (fun hc => Bool.noConfusion ((hm hc.1).symm.trans hc.2))]
  rw [if_neg (fun hc => Bool.noConfusion ((hvol hc.1).symm.trans hc.2))]
  rw [if_neg (fun hc => Bool.noConfusion ((hpro hc.1).symm.trans hc.2))]
  by_cases hL : cfg.min_actionable_score ≤ longPointsOf df rf rs mh cfg pro ∧
      shortPointsOf df rf rs mh cfg pro < longPointsOf df rf rs mh cfg pro
  · rw [if_pos hL]
    refine ⟨⟨fun _ => hL, fun _ => rfl⟩,
      iff_of_false (by simp) (fun hS => absurd hS.2 (not_lt.mpr (le_of_lt hL.2))),
      fun hnl _ => absurd hL hnl⟩
  · rw [if_neg hL]
    by_cases hS : cfg.min_actionable_score ≤ shortPointsOf df rf rs mh cfg pro ∧
        longPointsOf df rf rs mh cfg pro < shortPointsOf df rf rs mh cfg pro
    · rw [if_pos hS]
      exact ⟨iff_of_false (by simp) hL, ⟨fun _ => hS, fun _ => rfl⟩,
        fun _ hns => absurd hS hns⟩
    · rw [if_neg hS]
      exact ⟨iff_of_false (by simp) hL, iff_of_false (by simp) hS,
        fun _ _ => ⟨rfl, rfl⟩⟩

/-! ## Order bounds for folds and weighted sums (used by the VWAP claim) -/


lemma le_foldl_max (a : ℚ) (l : List ℚ) : a ≤ l.foldl max a := by
  induction l generalizing a with
  | nil => exact le_refl a
  | cons b t ih => exact le_trans (le_max_left a b) (ih (max a b))

lemma mem_le_foldl_max (x a : ℚ) (l : List ℚ) (h : x ∈ l) : x ≤ l.foldl max a := by
  induction l generalizing a with
  | nil => exact absurd h (List.not_mem_nil x)
  | cons b t ih =>
    rcases List.mem_cons.mp h with rfl | hx
    · exact le_trans (le_max_right a x) (le_foldl_max _ t)
    · exact ih (max a b) hx

lemma le_maxD (l : List ℚ) (x : ℚ) (hx : x ∈ l) : x ≤ maxD l := by
  cases l with
  | nil => exact absurd hx (List.not_mem_nil x)
  | cons a t =>
    rcases List.mem_cons.mp hx with rfl | hx'
    · exact le_foldl_max x t
    · exact mem_le_foldl_max x a t hx'

lemma foldl_min_le (a : ℚ) (l : List ℚ) : l.foldl min a ≤ a := by
  induction l generalizing a with
  | nil => exact le_refl a
  | cons b t ih => exact le_trans (ih (min a b)) (min_le_left a b)

lemma foldl_min_le_mem (x a : ℚ) (l : List ℚ) (h : x ∈ l) : l.foldl min a ≤ x := by
  induction l generalizing a with
  | nil => exact absurd h (List.not_mem_nil x)
  | cons b t ih =>
    rcases List.mem_cons.mp h with rfl | hx
    · exact le_trans (foldl_min_le _ t) (min_le_right a x)
    · exact ih (min a b) hx

lemma minD_le (l : List ℚ) (x : ℚ) (hx : x ∈ l) : minD l ≤ x := by
  cases l with
  | nil => exact absurd hx (List.not_mem_nil x)
  | cons a t =>
    rcases List.mem_cons.mp hx with rfl | hx'
    · exact foldl_min_le x t
    · exact foldl_min_le_mem x a t hx'

lemma weighted_sum_le_max (l : List Bar) (H : ℚ)
    (hH : ∀ b ∈ l, typical b ≤ H) (hv : ∀ b ∈ l, 0 ≤ b.volume) :
    (l.map (fun b => typical b * b.volume)).sum ≤ H * (l.map Bar.volume).sum := by
  induction l with
  | nil => simp
  | cons a t ih =>
    simp only [List.map_cons, List.sum_cons]
    have h1 : typical a * a.volume ≤ H * a.volume :=
      mul_le_mul_of_nonneg_right (hH a (List.mem_cons_self a t)) (hv a (List.mem_cons_self a t))
    have h2 := ih (fun b hb => hH b (List.mem_cons_of_mem a hb))
      (fun b hb => hv b (List.mem_cons_of_mem a hb))
    calc typical a * a.volume + (t.map (fun b => typical b * b.volume)).sum
        ≤ H * a.volume + H * (t.map Bar.volume).sum := add_le_add h1 h2
      _ = H * (a.volume + (t.map Bar.volume).sum) := by ring

lemma min_le_weighted_sum (l : List Bar) (L : ℚ)
    (hL : ∀ b ∈ l, L ≤ typical b) (hv : ∀ b ∈ l, 0 ≤ b.volume) :
    L * (l.map Bar.volume).sum ≤ (l.map (fun b => typical b * b.volume)).sum := by
  induction l with
  | nil => simp
  | cons a t ih =>
    simp only [List.map_cons, List.sum_cons]
    have h1 : L * a.volume ≤ typical a * a.volume :=
      mul_le_mul_of_nonneg_right (hL a (List.mem_cons_self a t)) (hv a (List.mem_cons_self a t))
    have h2 := ih (fun b hb => hL b (List.mem_cons_of_mem a hb))
      (fun b hb => hv b (List.mem_cons_of_mem a hb))
    calc L * (a.volume + (t.map Bar.volume).sum)
        = L * a.volume + L * (t.map Bar.volume).sum := by ring
      _ ≤ typical a * a.volume + (t.map (fun b => typical b * b.volume)).sum :=
        add_le_add h1 h2

/-! ## Backward-scan lemmas for the order-block search -/

/-- Inverting a successful descending scan: the hit index is below the bound
and every later index misses. -/
lemma scanDesc_some {β : Type} (f : ℕ → Option β) (n : ℕ) (b : β)
    (h : scanDesc f n = some b) :
    ∃ i, i < n ∧ f i = some b ∧ ∀ i', i < i' → i' < n → f i' = none := by
  induction n with
  | zero => exact Option.noConfusion h
  | succ m ih =>
    unfold scanDesc at h
    cases hf : f m with
    | some c =>
      rw [hf] at h
      rw [Option.some.injEq] at h
      subst h
      exact ⟨m, Nat.lt_succ_self m, hf, fun i' h1 h2 => absurd h1 (by omega)⟩
    | none =>
      rw [hf] at h
      obtain ⟨i, h1, h2, h3⟩ := ih h
      refine ⟨i, by omega, h2, fun i' hi1 hi2 => ?_⟩
      rcases Nat.lt_succ_iff_lt_or_eq.mp hi2 with hlt | rfl
      · exact h3 i' hi1 hlt
      · exact hf

/-- Unpack a successful bullish candidate test into its arithmetic facts. -/
lemma bullQual_true_elim (d : List Bar) (a : List (Option ℚ)) (i : ℕ)
    (h : bullQual d a i = true) :
    ∃ bi, d.get? i = some bi ∧ bi.close < bi.open_ ∧
      ∃ q, a.getD i none = some q ∧ q ≠ 0 ∧
        ∃ j bj, i < j ∧ j ≤ i + 3 ∧ d.get? j = some bj ∧
          bi.high < bj.close ∧ q < bj.close - bi.close := by
  unfold bullQual at h
  cases hg : d.get? i with
  | none => rw [hg] at h; exact Bool.noConfusion h
  | some bi =>
    rw [hg, Bool.and_eq_true, decide_eq_true_eq] at h
    obtain ⟨hco, h2⟩ := h
    cases ha : a.getD i none with
    | none => rw [ha] at h2; exact Bool.noConfusion h2
    | some q =>
      rw [ha, Bool.and_eq_true, Bool.not_eq_true', decide_eq_false_iff_not,
        List.any_eq_true] at h2
      obtain ⟨hq0, j, hj, hpj⟩ := h2
      rw [List.mem_range'_1] at hj
      cases hgj : d.get? j with
      | none => rw [hgj] at hpj; exact Bool.noConfusion hpj
      | some bj =>
        rw [hgj, decide_eq_true_eq] at hpj
        exact ⟨bi, rfl, hco, q, rfl, hq0, j, bj, by omega, by omega, hgj,
          hpj.1, hpj.2⟩

/-- Unpack a successful bearish candidate test into its arithmetic facts. -/
lemma bearQual_true_elim (d : List Bar) (a : List (Option ℚ)) (i : ℕ)
    (h : bearQual d a i = true) :
    ∃ bi, d.get? i = some bi ∧ bi.open_ < bi.close ∧
      ∃ q, a.getD i none = some q ∧ q ≠ 0 ∧
        ∃ j bj, i < j ∧ j ≤ i + 3 ∧ d.get? j = some bj ∧
          bj.close < bi.low ∧ q < bi.close - bj.close := by
  unfold bearQual at h
  cases hg : d.get? i with
  | none => rw [hg] at h; exact Bool.noConfusion h
  | some bi =>
    rw [hg, Bool.and_eq_true, decide_eq_true_eq] at h
    obtain ⟨hco, h2⟩ := h
    cases ha : a.getD i none with
    | none => rw [ha] at h2; exact Bool.noConfusion h2
    | some q =>
      rw [ha, Bool.and_eq_true, Bool.not_eq_true', decide_eq_false_iff_not,
        List.any_eq_true] at h2
      obtain ⟨hq0, j, hj, hpj⟩ := h2
      rw [List.mem_range'_1] at hj
      cases hgj : d.get? j with
      | none => rw [hgj] at hpj; exact Bool.noConfusion hpj
      | some bj =>
        rw [hgj, decide_eq_true_eq] at hpj
        exact ⟨bi, rfl, hco, q, rfl, hq0, j, bj, by omega, by omega, hgj,
          hpj.1, hpj.2⟩

/-- A successful bullish scan step yields the candidate bar and its zone. -/
lemma obCheckBull_some (d : List Bar) (a : List (Option ℚ)) (i : ℕ)
    (r : Option ℚ × Option ℚ × Option ℕ) (h : obCheckBull d a i = some r) :
    ∃ bi, d.get? i = some bi ∧ bullQual d a i = true ∧
      r = (some (min bi.low bi.open_), some (max bi.low bi.open_), some bi.ts) := by
  unfold obCheckBull at h
  split at h
  · exact Option.noConfusion h
  · rename_i bi hg
    split at h
    · rename_i hq
      rw [Option.some.injEq] at h
      exact ⟨bi, hg, hq, h.symm⟩
    · exact Option.noConfusion h

/-- A successful bearish scan step yields the candidate bar and its zone. -/
lemma obCheckBear_some (d : List Bar) (a : List (Option ℚ)) (i : ℕ)
    (r : Option ℚ × Option ℚ × Option ℕ) (h : obCheckBear d a i = some r) :
    ∃ bi, d.get? i = some bi ∧ bearQual d a i = true ∧
      r = (some (min bi.open_ bi.high), some (max bi.open_ bi.high), some bi.ts) := by
  unfold obCheckBear at h
  split at h
  · exact Option.noConfusion h
  · rename_i bi hg
    split at h
    · rename_i hq
      rw [Option.some.injEq] at h
      exact ⟨bi, hg, hq, h.symm⟩
    · exact Option.noConfusion h

/-- A failed bullish scan step means the candidate test failed. -/
lemma obCheckBull_none (d : List Bar) (a : List (Option ℚ)) (i : ℕ)
    (h : obCheckBull d a i = none) : bullQual d a i = false := by
  unfold obCheckBull at h
  split at h
  · rename_i hg
    unfold bullQual
    rw [hg]
  · split at h
    · exact Option.noConfusion h
    · rename_i hq
      exact Bool.eq_false_iff.mpr hq

/-- A failed bearish scan step means the candidate test failed. -/
lemma obCheckBear_none (d : List Bar) (a : List (Option ℚ)) (i : ℕ)
    (h : obCheckBear d a i = none) : bearQual d a i = false := by
  unfold obCheckBear at h
  split at h
  · rename_i hg
    unfold bearQual
    rw [hg]
  · split at h
    · exact Option.noConfusion h
    · rename_i hq
      exact Bool.eq_false_iff.mpr hq

/-! ## Claim theorems -/

/-- C1: the claim says every returned `SignalResult` has `setup_score` in
[0,100], including the NEUTRAL results of the hard-requirement gates in pro
mode.  The code violates this: on `barsPro` in pro mode the RSI gate returns
a NEUTRAL result whose reported score is the unclamped raw long total 105,
exceeding 100 (the win paths clamp with `min(100, ...)` and the dataclass
comment documents `setup_score: int  # 0..100`, so the gate paths simply miss
the clamp). -/
theorem setup_score_exceeds_100_on_pro_gate :
    (compute_scalp_signal "T" barsPro rsiFastFlat rsiSlowFlat macdHistUp "Fast scalp"
        true true false true 180 classifyOpening).map
      (fun r => (r.bias, r.setup_score)) = some ("NEUTRAL", 105) ∧ (100 : ℤ) < 105 := by
  constructor
  · with_unfolding_all rfl
  · decide

/-- C2: whenever `compute_scalp_signal` returns bias LONG or SHORT, all four
of entry, stop, target_1r, target_2r are present, with
`target_2r - entry = 2 * (target_1r - entry)`, target_1r strictly above the
entry for LONG and strictly below it for SHORT. -/
theorem directional_result_levels (symbol : String) (ohlcv : List Bar)
    (rf rs mh : List (Option ℚ)) (mode : String) (pro ao am ap : Bool)
    (lb : ℕ) (classify : ℕ → String) (r : SignalResult)
    (h : compute_scalp_signal symbol ohlcv rf rs mh mode pro ao am ap lb classify =
      some r)
    (hb : r.bias = "LONG" ∨ r.bias = "SHORT") :
    ∃ e s t1 t2, r.entry = some e ∧ r.stop = some s ∧ r.target_1r = some t1 ∧
      r.target_2r = some t2 ∧ t2 - e = 2 * (t1 - e) ∧
      (r.bias = "LONG" → e < t1) ∧ (r.bias = "SHORT" → t1 < e) := by
  rcases compute_result_cases symbol ohlcv rf rs mh mode pro ao am ap lb classify r h
    with hn | ⟨lbar, heq, hr⟩
  · rcases hb with hb | hb <;> rw [hn] at hb <;> exact absurd hb (by decide)
  · rcases hb with hb | hb
    · obtain ⟨he, hs', ht1, ht2⟩ :=
        scalp_main_long symbol (lastN lb ohlcv) (ffill (lastN lb rf))
          (ffill (lastN lb rs)) (ffill (lastN lb mh)) (PRESETS_get mode) pro
          lbar.close lbar.ts (classify lbar.ts) r hr.symm hb
      refine ⟨_, _, _, _, he, hs', ht1, ht2, by ring, fun _ => ?_,
        fun hS => absurd (hb.symm.trans hS) (by decide)⟩
      exact lt_add_of_pos_right _ (lt_of_lt_of_le (by norm_num) (le_max_right _ _))
    · obtain ⟨he, hs', ht1, ht2⟩ :=
        scalp_main_short symbol (lastN lb ohlcv) (ffill (lastN lb rf))
          (ffill (lastN lb rs)) (ffill (lastN lb mh)) (PRESETS_get mode) pro
          lbar.close lbar.ts (classify lbar.ts) r hr.symm hb
      refine ⟨_, _, _, _, he, hs', ht1, ht2, by ring,
        fun hL => absurd (hb.symm.trans hL) (by decide), fun _ => ?_⟩
      exact sub_lt_self _ (lt_of_lt_of_le (by norm_num) (le_max_right _ _))

/-- C2 witness: the theorem applied to the LONG-producing input `barsLong`. -/
theorem directional_result_levels_witness :
    ∃ r, compute_scalp_signal "T" barsLong rsiFastLong rsiSlowFlat macdHistUp
        "Cleaner signals" false true false true 180 classifyOpening = some r ∧
      ∃ e s t1 t2, r.entry = some e ∧ r.stop = some s ∧ r.target_1r = some t1 ∧
        r.target_2r = some t2 ∧ t2 - e = 2 * (t1 - e) ∧
        (r.bias = "LONG" → e < t1) ∧ (r.bias = "SHORT" → t1 < e) := by
  rcases hr : compute_scalp_signal "T" barsLong rsiFastLong rsiSlowFlat macdHistUp
      "Cleaner signals" false true false true 180 classifyOpening with _ | r
  · have hs : (compute_scalp_signal "T" barsLong rsiFastLong rsiSlowFlat macdHistUp
        "Cleaner signals" false true false true 180 classifyOpening).isSome = true := by
      with_unfolding_all rfl
    rw [hr] at hs
    exact Bool.noConfusion hs
  · have hbias : (compute_scalp_signal "T" barsLong rsiFastLong rsiSlowFlat macdHistUp
        "Cleaner signals" false true false true 180 classifyOpening).map
          SignalResult.bias = some "LONG" := by
      with_unfolding_all rfl
    rw [hr, Option.map_some'] at hbias
    exact ⟨r, rfl,
      directional_result_levels "T" barsLong rsiFastLong rsiSlowFlat macdHistUp
        "Cleaner signals" false true false true 180 classifyOpening r hr
        (Or.inl (Option.some.inj hbias))⟩

/-- C3: on a LONG return the entry is the final bar's close, the stop is
`min(recent swing low, entry - 0.8 * atr_last)`, the risk is
`max(entry - stop, 0.01)` and the targets are entry plus one and two risks;
a SHORT return mirrors these with the sign flipped.  (`atrLastOf` is the
final-bar ATR-14, zero when undefined; it is nonnegative, so the code's
`max(atr_last, 0.0)` coincides with it.) -/
theorem level_derivation_formulas (symbol : String) (ohlcv : List Bar)
    (rf rs mh : List (Option ℚ)) (mode : String) (pro ao am ap : Bool)
    (lb : ℕ) (classify : ℕ → String) (r : SignalResult) (lbar : Bar)
    (h : compute_scalp_signal symbol ohlcv rf rs mh mode pro ao am ap lb classify =
      some r)
    (hw : (lastN lb ohlcv).getLast? = some lbar) :
    (r.bias = "LONG" →
      r.entry = some lbar.close ∧
        r.stop = some (min (recentSwingLow (lastN lb ohlcv))
          (lbar.close - atrLastOf (lastN lb ohlcv) * (8 / 10))) ∧
        r.target_1r = some (lbar.close +
          max (lbar.close - min (recentSwingLow (lastN lb ohlcv))
            (lbar.close - atrLastOf (lastN lb ohlcv) * (8 / 10))) (1 / 100)) ∧
        r.target_2r = some (lbar.close +
          2 * max (lbar.close - min (recentSwingLow (lastN lb ohlcv))
            (lbar.close - atrLastOf (lastN lb ohlcv) * (8 / 10))) (1 / 100))) ∧
      (r.bias = "SHORT" →
        r.entry = some lbar.close ∧
          r.stop = some (max (recentSwingHigh (lastN lb ohlcv))
            (lbar.close + atrLastOf (lastN lb ohlcv) * (8 / 10))) ∧
          r.target_1r = some (lbar.close -
            max (max (recentSwingHigh (lastN lb ohlcv))
              (lbar.close + atrLastOf (lastN lb ohlcv) * (8 / 10)) - lbar.close)
              (1 / 100)) ∧
          r.target_2r = some (lbar.close -
            2 * max (max (recentSwingHigh (lastN lb ohlcv))
              (lbar.close + atrLastOf (lastN lb ohlcv) * (8 / 10)) - lbar.close)
              (1 / 100))) := by
  have hmax : max (atrLastOf (lastN lb ohlcv)) 0 = atrLastOf (lastN lb ohlcv) :=
    max_eq_left (atrLastOf_nonneg _)
  rcases compute_result_cases symbol ohlcv rf rs mh mode pro ao am ap lb classify r h
    with hn | ⟨lbar', heq, hr⟩
  · constructor
    · intro hb
      rw [hn] at hb
      exact absurd hb (by decide)
    · intro hb
      rw [hn] at hb
      exact absurd hb (by decide)
  · have hlb : lbar' = lbar := Option.some.inj (heq.symm.trans hw)
    subst hlb
    constructor
    · intro hb
      have := scalp_main_long symbol (lastN lb ohlcv) (ffill (lastN lb rf))
        (ffill (lastN lb rs)) (ffill (lastN lb mh)) (PRESETS_get mode) pro
        lbar'.close lbar'.ts (classify lbar'.ts) r hr.symm hb
      rw [hmax] at this
      exact this
    · intro hb
      have := scalp_main_short symbol (lastN lb ohlcv) (ffill (lastN lb rf))
        (ffill (lastN lb rs)) (ffill (lastN lb mh)) (PRESETS_get mode) pro
        lbar'.close lbar'.ts (classify lbar'.ts) r hr.symm hb
      rw [hmax] at this
      exact this

/-- C3 witness: the theorem applied to `barsLong` (whose final window bar is
`barsLongLast`). -/
theorem level_derivation_formulas_witness :
    ∃ r, compute_scalp_signal "T" barsLong rsiFastLong rsiSlowFlat macdHistUp
        "Cleaner signals" false true false true 180 classifyOpening = some r ∧
      ((r.bias = "LONG" →
        r.entry = some barsLongLast.close ∧
          r.stop = some (min (recentSwingLow (lastN 180 barsLong))
            (barsLongLast.close - atrLastOf (lastN 180 barsLong) * (8 / 10))) ∧
          r.target_1r = some (barsLongLast.close +
            max (barsLongLast.close - min (recentSwingLow (lastN 180 barsLong))
              (barsLongLast.close - atrLastOf (lastN 180 barsLong) * (8 / 10)))
              (1 / 100)) ∧
          r.target_2r = some (barsLongLast.close +
            2 * max (barsLongLast.close - min (recentSwingLow (lastN 180 barsLong))
              (barsLongLast.close - atrLastOf (lastN 180 barsLong) * (8 / 10)))
              (1 / 100))) ∧
        (r.bias = "SHORT" →
          r.entry = some barsLongLast.close ∧
            r.stop = some (max (recentSwingHigh (lastN 180 barsLong))
              (barsLongLast.close + atrLastOf (lastN 180 barsLong) * (8 / 10))) ∧
            r.target_1r = some (barsLongLast.close -
              max (max (recentSwingHigh (lastN 180 barsLong))
                (barsLongLast.close + atrLastOf (lastN 180 barsLong) * (8 / 10)) -
                barsLongLast.close) (1 / 100)) ∧
            r.target_2r = some (barsLongLast.close -
              2 * max (max (recentSwingHigh (lastN 180 barsLong))
                (barsLongLast.close + atrLastOf (lastN 180 barsLong) * (8 / 10)) -
                barsLongLast.close) (1 / 100)))) := by
  rcases hr : compute_scalp_signal "T" barsLong rsiFastLong rsiSlowFlat macdHistUp
      "Cleaner signals" false true false true 180 classifyOpening with _ | r
  · have hs : (compute_scalp_signal "T" barsLong rsiFastLong rsiSlowFlat macdHistUp
        "Cleaner signals" false true false true 180 classifyOpening).isSome = true := by
      with_unfolding_all rfl
    rw [hr] at hs
    exact Bool.noConfusion hs
  · exact ⟨r, rfl,
      level_derivation_formulas "T" barsLong rsiFastLong rsiSlowFlat macdHistUp
        "Cleaner signals" false true false true 180 classifyOpening r barsLongLast hr
        (by with_unfolding_all rfl)⟩

/-- C4: when the sufficiency, session and every enabled hard-requirement gate
pass, the returned bias is LONG iff the long total reaches the preset's
`min_actionable_score` and strictly exceeds the short total, SHORT iff the
mirror condition holds, and otherwise NEUTRAL with a reason string that
enumerates the contributing rules and totals of both sides. -/
theorem decision_rule (symbol : String) (ohlcv : List Bar)
    (rf rs mh : List (Option ℚ)) (mode : String) (pro ao am ap : Bool)
    (lb : ℕ) (classify : ℕ → String) (lbar : Bar)
    (h60 : 60 ≤ ohlcv.length)
    (hw : (lastN lb ohlcv).getLast? = some lbar)
    (hallow : sessionAllowedB (classify lbar.ts) ao am ap = true)
    (hv : (PRESETS_get mode).require_vwap_event = 1 →
      vwapEventB (lastN lb ohlcv) = true)
    (hrs : (PRESETS_get mode).require_rsi_event = 1 →
      rsiEventB (ffill (lastN lb rf)) = true)
    (hm : (PRESETS_get mode).require_macd_turn = 1 →
      macdEventB (ffill (lastN lb mh)) = true)
    (hvol : (PRESETS_get mode).require_volume = 1 →
      volOk (lastN lb ohlcv) (PRESETS_get mode).vol_multiplier = true)
    (hpro : pro = true → proTriggerB (lastN lb ohlcv) = true) :
    ∃ r, compute_scalp_signal symbol ohlcv rf rs mh mode pro ao am ap lb classify =
        some r ∧
      ((r.bias = "LONG" ↔
        ((PRESETS_get mode).min_actionable_score ≤
            longPointsOf (lastN lb ohlcv) (ffill (lastN lb rf)) (ffill (lastN lb rs))
              (ffill (lastN lb mh)) (PRESETS_get mode) pro ∧
          shortPointsOf (lastN lb ohlcv) (ffill (lastN lb rf)) (ffill (lastN lb rs))
              (ffill (lastN lb mh)) (PRESETS_get mode) pro <
            longPointsOf (lastN lb ohlcv) (ffill (lastN lb rf)) (ffill (lastN lb rs))
              (ffill (lastN lb mh)) (PRESETS_get mode) pro)) ∧
      (r.bias = "SHORT" ↔
        ((PRESETS_get mode).min_actionable_score ≤
            shortPointsOf (lastN lb ohlcv) (ffill (lastN lb rf)) (ffill (lastN lb rs))
              (ffill (lastN lb mh)) (PRESETS_get mode) pro ∧
          longPointsOf (lastN lb ohlcv) (ffill (lastN lb rf)) (ffill (lastN lb rs))
              (ffill (lastN lb mh)) (PRESETS_get mode) pro <
            shortPointsOf (lastN lb ohlcv) (ffill (lastN lb rf)) (ffill (lastN lb rs))
              (ffill (lastN lb mh)) (PRESETS_get mode) pro)) ∧
      (¬((PRESETS_get mode).min_actionable_score ≤
            longPointsOf (lastN lb ohlcv) (ffill (lastN lb rf)) (ffill (lastN lb rs))
              (ffill (lastN lb mh)) (PRESETS_get mode) pro ∧
          shortPointsOf (lastN lb ohlcv) (ffill (lastN lb rf)) (ffill (lastN lb rs))
              (ffill (lastN lb mh)) (PRESETS_get mode) pro <
            longPointsOf (lastN lb ohlcv) (ffill (lastN lb rf)) (ffill (lastN lb rs))
              (ffill (lastN lb mh)) (PRESETS_get mode) pro) →
        ¬((PRESETS_get mode).min_actionable_score ≤
            shortPointsOf (lastN lb ohlcv) (ffill (lastN lb rf)) (ffill (lastN lb rs))
              (ffill (lastN lb mh)) (PRESETS_get mode) pro ∧
          longPointsOf (lastN lb ohlcv) (ffill (lastN lb rf)) (ffill (lastN lb rs))
              (ffill (lastN lb mh)) (PRESETS_get mode) pro <
            shortPointsOf (lastN lb ohlcv) (ffill (lastN lb rf)) (ffill (lastN lb rs))
              (ffill (lastN lb mh)) (PRESETS_get mode) pro) →
        r.bias = "NEUTRAL" ∧
        r.reason =
          "LongScore=" ++ toString (longPointsOf (lastN lb ohlcv)
              (ffill (lastN lb rf)) (ffill (lastN lb rs)) (ffill (lastN lb mh))
              (PRESETS_get mode) pro) ++ " (" ++
            String.intercalate ", " (longReasonsOf (lastN lb ohlcv)
              (ffill (lastN lb rf)) (ffill (lastN lb rs)) (ffill (lastN lb mh))
              (PRESETS_get mode) pro) ++
            "); ShortScore=" ++ toString (shortPointsOf (lastN lb ohlcv)
              (ffill (lastN lb rf)) (ffill (lastN lb rs)) (ffill (lastN lb mh))
              (PRESETS_get mode) pro) ++ " (" ++
            String.intercalate ", " (shortReasonsOf (lastN lb ohlcv)
              (ffill (lastN lb rf)) (ffill (lastN lb rs)) (ffill (lastN lb mh))
              (PRESETS_get mode) pro) ++ ")")) := by
  refine ⟨scalp_main symbol (lastN lb ohlcv) (ffill (lastN lb rf))
    (ffill (lastN lb rs)) (ffill (lastN lb mh)) (PRESETS_get mode) pro
    lbar.close lbar.ts (classify lbar.ts), ?_,
    scalp_main_decision symbol (lastN lb ohlcv) (ffill (lastN lb rf))
      (ffill (lastN lb rs)) (ffill (lastN lb mh)) (PRESETS_get mode) pro
      lbar.close lbar.ts (classify lbar.ts) hv hrs hm hvol hpro⟩
  simp only [compute_scalp_signal, scalp_core]
  rw [if_neg (by omega)]
  simp only [hw, hallow, Bool.not_true, Bool.false_eq_true, if_false]

/-- C4 witness: on `barsLong` with the "Cleaner signals" preset all four
gates pass, and the instantiated decision trichotomy holds. -/
theorem decision_rule_witness :
    ∃ r, compute_scalp_signal "T" barsLong rsiFastLong rsiSlowFlat macdHistUp
        "Cleaner signals" false true false true 180 classifyOpening = some r ∧
      ((r.bias = "LONG" ↔
        ((PRESETS_get "Cleaner signals").min_actionable_score ≤
            longPointsOf (lastN 180 barsLong) (ffill (lastN 180 rsiFastLong))
              (ffill (lastN 180 rsiSlowFlat)) (ffill (lastN 180 macdHistUp))
              (PRESETS_get "Cleaner signals") false ∧
          shortPointsOf (lastN 180 barsLong) (ffill (lastN 180 rsiFastLong))
              (ffill (lastN 180 rsiSlowFlat)) (ffill (lastN 180 macdHistUp))
              (PRESETS_get "Cleaner signals") false <
            longPointsOf (lastN 180 barsLong) (ffill (lastN 180 rsiFastLong))
              (ffill (lastN 180 rsiSlowFlat)) (ffill (lastN 180 macdHistUp))
              (PRESETS_get "Cleaner signals") false)) ∧
      (r.bias = "SHORT" ↔
        ((PRESETS_get "Cleaner signals").min_actionable_score ≤
            shortPointsOf (lastN 180 barsLong) (ffill (lastN 180 rsiFastLong))
              (ffill (lastN 180 rsiSlowFlat)) (ffill (lastN 180 macdHistUp))
              (PRESETS_get "Cleaner signals") false ∧
          longPointsOf (lastN 180 barsLong) (ffill (lastN 180 rsiFastLong))
              (ffill (lastN 180 rsiSlowFlat)) (ffill (lastN 180 macdHistUp))
              (PRESETS_get "Cleaner signals") false <
            shortPointsOf (lastN 180 barsLong) (ffill (lastN 180 rsiFastLong))
              (ffill (lastN 180 rsiSlowFlat)) (ffill (lastN 180 macdHistUp))
              (PRESETS_get "Cleaner signals") false)) ∧
      (¬((PRESETS_get "Cleaner signals").min_actionable_score ≤
            longPointsOf (lastN 180 barsLong) (ffill (lastN 180 rsiFastLong))
              (ffill (lastN 180 rsiSlowFlat)) (ffill (lastN 180 macdHistUp))
              (PRESETS_get "Cleaner signals") false ∧
          shortPointsOf (lastN 180 barsLong) (ffill (lastN 180 rsiFastLong))
              (ffill (lastN 180 rsiSlowFlat)) (ffill (lastN 180 macdHistUp))
              (PRESETS_get "Cleaner signals") false <
            longPointsOf (lastN 180 barsLong) (ffill (lastN 180 rsiFastLong))
              (ffill (lastN 180 rsiSlowFlat)) (ffill (lastN 180 macdHistUp))
              (PRESETS_get "Cleaner signals") false) →
        ¬((PRESETS_get "Cleaner signals").min_actionable_score ≤
            shortPointsOf (lastN 180 barsLong) (ffill (lastN 180 rsiFastLong))
              (ffill (lastN 180 rsiSlowFlat)) (ffill (lastN 180 macdHistUp))
              (PRESETS_get "Cleaner signals") false ∧
          longPointsOf (lastN 180 barsLong) (ffill (lastN 180 rsiFastLong))
              (ffill (lastN 180 rsiSlowFlat)) (ffill (lastN 180 macdHistUp))
              (PRESETS_get "Cleaner signals") false <
            shortPointsOf (lastN 180 barsLong) (ffill (lastN 180 rsiFastLong))
              (ffill (lastN 180 rsiSlowFlat)) (ffill (lastN 180 macdHistUp))
              (PRESETS_get "Cleaner signals") false) →
        r.bias = "NEUTRAL" ∧
        r.reason =
          "LongScore=" ++ toString (longPointsOf (lastN 180 barsLong)
              (ffill (lastN 180 rsiFastLong)) (ffill (lastN 180 rsiSlowFlat))
              (ffill (lastN 180 macdHistUp)) (PRESETS_get "Cleaner signals")
              false) ++ " (" ++
            String.intercalate ", " (longReasonsOf (lastN 180 barsLong)
              (ffill (lastN 180 rsiFastLong)) (ffill (lastN 180 rsiSlowFlat))
              (ffill (lastN 180 macdHistUp)) (PRESETS_get "Cleaner signals")
              false) ++
            "); ShortScore=" ++ toString (shortPointsOf (lastN 180 barsLong)
              (ffill (lastN 180 rsiFastLong)) (ffill (lastN 180 rsiSlowFlat))
              (ffill (lastN 180 macdHistUp)) (PRESETS_get "Cleaner signals")
              false) ++ " (" ++
            String.intercalate ", " (shortReasonsOf (lastN 180 barsLong)
              (ffill (lastN 180 rsiFastLong)) (ffill (lastN 180 rsiSlowFlat))
              (ffill (lastN 180 macdHistUp)) (PRESETS_get "Cleaner signals")
              false) ++ ")")) :=
  decision_rule "T" barsLong rsiFastLong rsiSlowFlat macdHistUp "Cleaner signals"
    false true false true 180 classifyOpening barsLongLast (by decide)
    (by with_unfolding_all rfl) (by with_unfolding_all rfl)
    (fun _ => by with_unfolding_all rfl) (fun _ => by with_unfolding_all rfl)
    (fun _ => by with_unfolding_all rfl) (fun _ => by with_unfolding_all rfl)
    (fun hc => Bool.noConfusion hc)

/-- C5 counterexample: for a series shorter than 60 bars the returned reason
string is "Not enough data", not the claimed "insufficient data". -/
theorem short_series_reason_is_not_insufficient_data :
    (compute_scalp_signal "X" [] [] [] [] "Cleaner signals" false true false true 180
        classifyOff).map SignalResult.reason = some "Not enough data" ∧
      "Not enough data" ≠ "insufficient data" := by
  constructor
  · with_unfolding_all rfl
  · decide

/-- C5 amended: for every bar series with fewer than 60 bars,
`compute_scalp_signal` returns NEUTRAL, score 0, reason "Not enough data"
(the code's actual string), and no price levels, regardless of every other
argument. -/
theorem short_series_returns_neutral (symbol : String) (ohlcv : List Bar)
    (rf rs mh : List (Option ℚ)) (mode : String) (pro ao am ap : Bool)
    (lb : ℕ) (classify : ℕ → String) (h : ohlcv.length < 60) :
    compute_scalp_signal symbol ohlcv rf rs mh mode pro ao am ap lb classify =
      some ⟨symbol, "NEUTRAL", 0, "Not enough data",
        none, none, none, none, none, none, "OFF", []⟩ := by
  unfold compute_scalp_signal scalp_core
  rw [if_pos h]

/-- C5 witness: the amended theorem applied to the empty bar series. -/
theorem short_series_returns_neutral_witness :
    compute_scalp_signal "X" [] [] [] [] "Cleaner signals" false true false true 180
        classifyOff =
      some ⟨"X", "NEUTRAL", 0, "Not enough data",
        none, none, none, none, none, none, "OFF", []⟩ :=
  short_series_returns_neutral "X" [] [] [] [] "Cleaner signals" false true false true 180
    classifyOff (by decide)

/-- C10: a `mode` that is not a key of the preset table silently falls back
to the "Cleaner signals" preset, so the whole invocation returns exactly what
the same call with mode "Cleaner signals" returns. -/
theorem unknown_mode_uses_cleaner_signals (symbol : String) (ohlcv : List Bar)
    (rf rs mh : List (Option ℚ)) (mode : String) (pro ao am ap : Bool)
    (lb : ℕ) (classify : ℕ → String)
    (h1 : mode ≠ "Fast scalp") (h2 : mode ≠ "Cleaner signals") :
    compute_scalp_signal symbol ohlcv rf rs mh mode pro ao am ap lb classify =
      compute_scalp_signal symbol ohlcv rf rs mh "Cleaner signals" pro ao am ap lb
        classify := by
  unfold compute_scalp_signal
  rw [PRESETS_get_default mode h1 h2]

/-- C10 witness: the theorem applied to the unknown mode "Turbo". -/
theorem unknown_mode_uses_cleaner_signals_witness :
    compute_scalp_signal "T" flatBars60 rsiFastFlat rsiSlowFlat macdHistUp "Turbo"
        false true false true 180 classifyOpening =
      compute_scalp_signal "T" flatBars60 rsiFastFlat rsiSlowFlat macdHistUp
        "Cleaner signals" false true false true 180 classifyOpening :=
  unknown_mode_uses_cleaner_signals "T" flatBars60 rsiFastFlat rsiSlowFlat macdHistUp
    "Turbo" false true false true 180 classifyOpening (by decide) (by decide)

/-- C9: whatever the three allow flags are, when the injected classifier
labels the final window bar's timestamp OFF and at least 60 bars are present,
the engine returns NEUTRAL with score 0, the time-of-day reason, the last
price and timestamp populated, and no levels. -/
theorem off_session_always_filtered (symbol : String) (ohlcv : List Bar)
    (rf rs mh : List (Option ℚ)) (mode : String) (pro ao am ap : Bool)
    (lb : ℕ) (classify : ℕ → String) (lbar : Bar)
    (h60 : 60 ≤ ohlcv.length)
    (hw : (lastN lb ohlcv).getLast? = some lbar)
    (hs : classify lbar.ts = "OFF") :
    compute_scalp_signal symbol ohlcv rf rs mh mode pro ao am ap lb classify =
      some ⟨symbol, "NEUTRAL", 0, "Filtered by time-of-day (OFF)",
        none, none, none, none, some lbar.close, some lbar.ts, "OFF", []⟩ := by
  unfold compute_scalp_signal scalp_core
  rw [if_neg (by omega)]
  simp only [hw, hs, sessionAllowedB_off, Bool.not_false, if_pos]
  with_unfolding_all rfl

/-- C9 witness: the theorem applied to 60 flat bars with the constant-OFF
classifier and all three allow flags true. -/
theorem off_session_always_filtered_witness :
    compute_scalp_signal "T" flatBars60 rsiFastFlat rsiSlowFlat macdHistUp
        "Cleaner signals" false true true true 180 classifyOff =
      some ⟨"T", "NEUTRAL", 0, "Filtered by time-of-day (OFF)",
        none, none, none, none, some 100, some 59, "OFF", []⟩ :=
  off_session_always_filtered "T" flatBars60 rsiFastFlat rsiSlowFlat macdHistUp
    "Cleaner signals" false true true true 180 classifyOff (flatBar 59)
    (by decide) (by with_unfolding_all rfl) rfl

/-- C7 counterexample: with only nonnegative volumes required, a bar whose
close exceeds its high drives VWAP (101/3) above the running maximum high
(1), so the claimed bound fails as stated. -/
theorem vwap_bound_fails_without_wellformed_bars :
    (∀ b ∈ [vwapBadBar], 0 ≤ b.volume) ∧
      (vwap [vwapBadBar]).get? 0 = some (some (101 / 3)) ∧
      maxD (([vwapBadBar].take 1).map Bar.high) = 1 ∧
      ¬((101 / 3 : ℚ) ≤ 1) := by
  refine ⟨fun b hb => ?_, by with_unfolding_all rfl, by with_unfolding_all rfl,
    by norm_num⟩
  rw [List.mem_singleton] at hb
  subst hb
  norm_num [vwapBadBar]

/-- C7 amended: for bar series with nonnegative volumes and well-formed bars
(low <= close <= high), the VWAP series is undefined exactly where the
cumulative volume is zero, and each defined value lies within
[min of lows, max of highs] over the bars seen so far. -/
theorem vwap_bounds (bars : List Bar)
    (hv : ∀ b ∈ bars, 0 ≤ b.volume)
    (hwf : ∀ b ∈ bars, b.low ≤ b.close ∧ b.close ≤ b.high ∧ b.low ≤ b.high) :
    ∀ i < bars.length,
      ((vwap bars).get? i = some none ↔
        ((bars.take (i + 1)).map Bar.volume).sum = 0) ∧
      ∀ v, (vwap bars).get? i = some (some v) →
        minD ((bars.take (i + 1)).map Bar.low) ≤ v ∧
          v ≤ maxD ((bars.take (i + 1)).map Bar.high) := by
  intro i hi
  set pre := bars.take (i + 1) with hpre
  have hget : (vwap bars).get? i = some (
      if (pre.map Bar.volume).sum = 0 then none
      else some ((pre.map (fun b => typical b * b.volume)).sum /
        (pre.map Bar.volume).sum)) := by
    unfold vwap
    rw [List.get?_map, List.get?_range hi, Option.map_some']
  have hmem : ∀ b ∈ pre, b ∈ bars := fun b hb => List.mem_of_mem_take hb
  by_cases hden : (pre.map Bar.volume).sum = 0
  · rw [if_pos hden] at hget
    refine ⟨⟨fun _ => hden, fun _ => hget⟩, fun v hvv => ?_⟩
    rw [hget] at hvv
    exact Option.noConfusion (Option.some.inj hvv)
  · rw [if_neg hden] at hget
    have hdpos : 0 < (pre.map Bar.volume).sum := by
      rcases lt_or_eq_of_le (List.sum_nonneg (fun x hx => by
        rcases List.mem_map.mp hx with ⟨b, hb, rfl⟩
        exact hv b (hmem b hb))) with h | h
      · exact h
      · exact absurd h.symm hden
    constructor
    · rw [hget]
      exact ⟨fun hc => Option.noConfusion (Option.some.inj hc),
        fun hc => absurd hc hden⟩
    · intro v hvv
      rw [hget] at hvv
      have hv' : v = (pre.map (fun b => typical b * b.volume)).sum /
          (pre.map Bar.volume).sum := (Option.some.inj (Option.some.inj hvv)).symm
      subst hv'
      constructor
      · rw [le_div_iff hdpos]
        refine min_le_weighted_sum pre _ (fun b hb => ?_)
          (fun b hb => hv b (hmem b hb))
        have hb' := hwf b (hmem b hb)
        have h1 : minD (pre.map Bar.low) ≤ b.low :=
          minD_le _ _ (List.mem_map_of_mem Bar.low hb)
        unfold typical
        obtain ⟨hlc, hch, hlh⟩ := hb'
        linarith
      · rw [div_le_iff hdpos]
        refine weighted_sum_le_max pre _ (fun b hb => ?_)
          (fun b hb => hv b (hmem b hb))
        have hb' := hwf b (hmem b hb)
        have h1 : b.high ≤ maxD (pre.map Bar.high) :=
          le_maxD _ _ (List.mem_map_of_mem Bar.high hb)
        unfold typical
        obtain ⟨hlc, hch, hlh⟩ := hb'
        linarith

/-- C7 witness: the amended theorem applied to a single well-formed bar,
whose VWAP value 3/2 obeys both bounds. -/
theorem vwap_bounds_witness :
    minD (([vwapGoodBar].take 1).map Bar.low) ≤ 3 / 2 ∧
      (3 / 2 : ℚ) ≤ maxD (([vwapGoodBar].take 1).map Bar.high) := by
  have h := vwap_bounds [vwapGoodBar]
    (fun b hb => by rw [List.mem_singleton] at hb; subst hb; norm_num [vwapGoodBar])
    (fun b hb => by
      rw [List.mem_singleton] at hb
      subst hb
      refine ⟨by norm_num [vwapGoodBar], by norm_num [vwapGoodBar],
        by norm_num [vwapGoodBar]⟩)
    0 (by decide)
  exact h.2 (3 / 2) (by with_unfolding_all rfl)

/-- C6 counterexample: `find_order_block` returns the zone (5, 10) anchored
at bar 6 of `obBars`, yet no candidate in the window satisfies the claim's
"close moves beyond the candle's extreme by more than 1.0 x ATR" condition
(`bullQualClaim`): the breakout close 10.5 is only 0.5 above the candidate's
high while the ATR is 2. -/
theorem order_block_beyond_extreme_fails :
    find_order_block obBars obAtr "bull" 30 = (some 5, some 10, some 6) ∧
      (List.range 10).all (fun i =>
        !bullQualClaim (lastN 30 obBars) (ffill (lastN 30 obAtr)) i) = true := by
  constructor
  · with_unfolding_all rfl
  · with_unfolding_all rfl

/-- C6 amended: a zone is returned only when some opposite-colored candidate
at least 3 bars before the window end is followed within 1-3 bars by a close
beyond its extreme that also moves more than 1.0 x the candidate's
(forward-filled, finite, nonzero) ATR away from the candidate's CLOSE; the
returned candidate is the most recent such candle among those positions, and
the zone is [low, open] (bullish) or [open, high] (bearish) normalized so
low <= high. -/
theorem find_order_block_sound (df : List Bar) (atrS : List (Option ℚ))
    (side : String) (lookback : ℕ) (zl zh : ℚ) (t : ℕ)
    (h : find_order_block df atrS side lookback = (some zl, some zh, some t)) :
    10 ≤ df.length ∧
      ((side = "bull" →
        ∃ i bi, (lastN lookback df).get? i = some bi ∧
          i + 3 < (lastN lookback df).length ∧
          bi.close < bi.open_ ∧
          (∃ q, (ffill (lastN lookback atrS)).getD i none = some q ∧ q ≠ 0 ∧
            ∃ j bj, i < j ∧ j ≤ i + 3 ∧ (lastN lookback df).get? j = some bj ∧
              bi.high < bj.close ∧ q < bj.close - bi.close) ∧
          zl = min bi.low bi.open_ ∧ zh = max bi.low bi.open_ ∧ t = bi.ts ∧
          (∀ i', i < i' → i' + 3 < (lastN lookback df).length →
            bullQual (lastN lookback df) (ffill (lastN lookback atrS)) i' = false)) ∧
      (side ≠ "bull" →
        ∃ i bi, (lastN lookback df).get? i = some bi ∧
          i + 3 < (lastN lookback df).length ∧
          bi.open_ < bi.close ∧
          (∃ q, (ffill (lastN lookback atrS)).getD i none = some q ∧ q ≠ 0 ∧
            ∃ j bj, i < j ∧ j ≤ i + 3 ∧ (lastN lookback df).get? j = some bj ∧
              bj.close < bi.low ∧ q < bi.close - bj.close) ∧
          zl = min bi.open_ bi.high ∧ zh = max bi.open_ bi.high ∧ t = bi.ts ∧
          (∀ i', i < i' → i' + 3 < (lastN lookback df).length →
            bearQual (lastN lookback df) (ffill (lastN lookback atrS)) i' = false))) := by
  unfold find_order_block at h
  split at h
  · simp at h
  · rename_i hlen
    refine ⟨by omega, ?_⟩
    split at h
    · rename_i hside
      refine ⟨fun _ => ?_, fun hns => absurd hside hns⟩
      split at h
      · rename_i r hscan
        subst h
        obtain ⟨i, hin, hfi, hnone⟩ := scanDesc_some _ _ _ hscan
        obtain ⟨bi, hg, hq, hr⟩ := obCheckBull_some _ _ _ _ hfi
        obtain ⟨bi', hg', hco, q, ha, hq0, j, bj, hij, hj3, hgj, hhigh, hdisp⟩ :=
          bullQual_true_elim _ _ _ hq
        have hbb : bi' = bi := by
          rw [hg] at hg'
          exact (Option.some.inj hg').symm
        subst hbb
        rw [Prod.mk.injEq, Prod.mk.injEq, Option.some.injEq, Option.some.injEq,
          Option.some.injEq] at hr
        refine ⟨i, bi', hg, by omega, hco, ⟨q, ha, hq0, j, bj, hij, hj3, hgj,
          hhigh, hdisp⟩, hr.1, hr.2.1, hr.2.2, fun i' h1 h2 => ?_⟩
        exact obCheckBull_none _ _ _ (hnone i' h1 (by omega))
      · simp at h
    · rename_i hside
      refine ⟨fun hs => absurd hs hside, fun _ => ?_⟩
      split at h
      · rename_i r hscan
        subst h
        obtain ⟨i, hin, hfi, hnone⟩ := scanDesc_some _ _ _ hscan
        obtain ⟨bi, hg, hq, hr⟩ := obCheckBear_some _ _ _ _ hfi
        obtain ⟨bi', hg', hco, q, ha, hq0, j, bj, hij, hj3, hgj, hlow, hdisp⟩ :=
          bearQual_true_elim _ _ _ hq
        have hbb : bi' = bi := by
          rw [hg] at hg'
          exact (Option.some.inj hg').symm
        subst hbb
        rw [Prod.mk.injEq, Prod.mk.injEq, Option.some.injEq, Option.some.injEq,
          Option.some.injEq] at hr
        refine ⟨i, bi', hg, by omega, hco, ⟨q, ha, hq0, j, bj, hij, hj3, hgj,
          hlow, hdisp⟩, hr.1, hr.2.1, hr.2.2, fun i' h1 h2 => ?_⟩
        exact obCheckBear_none _ _ _ (hnone i' h1 (by omega))
      · simp at h

/-- C6 witness: the amended theorem applied to `obBars`. -/
theorem find_order_block_sound_witness :
    10 ≤ obBars.length ∧
      (("bull" = "bull" →
        ∃ i bi, (lastN 30 obBars).get? i = some bi ∧
          i + 3 < (lastN 30 obBars).length ∧
          bi.close < bi.open_ ∧
          (∃ q, (ffill (lastN 30 obAtr)).getD i none = some q ∧ q ≠ 0 ∧
            ∃ j bj, i < j ∧ j ≤ i + 3 ∧ (lastN 30 obBars).get? j = some bj ∧
              bi.high < bj.close ∧ q < bj.close - bi.close) ∧
          (5 : ℚ) = min bi.low bi.open_ ∧ (10 : ℚ) = max bi.low bi.open_ ∧
          (6 : ℕ) = bi.ts ∧
          (∀ i', i < i' → i' + 3 < (lastN 30 obBars).length →
            bullQual (lastN 30 obBars) (ffill (lastN 30 obAtr)) i' = false)) ∧
      ("bull" ≠ "bull" →
        ∃ i bi, (lastN 30 obBars).get? i = some bi ∧
          i + 3 < (lastN 30 obBars).length ∧
          bi.open_ < bi.close ∧
          (∃ q, (ffill (lastN 30 obAtr)).getD i none = some q ∧ q ≠ 0 ∧
            ∃ j bj, i < j ∧ j ≤ i + 3 ∧ (lastN 30 obBars).get? j = some bj ∧
              bj.close < bi.low ∧ q < bi.close - bj.close) ∧
          (5 : ℚ) = min bi.open_ bi.high ∧ (10 : ℚ) = max bi.open_ bi.high ∧
          (6 : ℕ) = bi.ts ∧
          (∀ i', i < i' → i' + 3 < (lastN 30 obBars).length →
            bearQual (lastN 30 obBars) (ffill (lastN 30 obAtr)) i' = false))) :=
  find_order_block_sound obBars obAtr "bull" 30 5 10 6 (by with_unfolding_all rfl)

/-- C8: whenever `find_order_block` returns a zone (either side), the
candidate bar's ATR value - after restriction to the lookback window and
forward-fill - is present (finite) and nonzero. -/
theorem order_block_atr_nonzero (df : List Bar) (atrS : List (Option ℚ))
    (side : String) (lookback : ℕ) (zl zh : ℚ) (t : ℕ)
    (h : find_order_block df atrS side lookback = (some zl, some zh, some t)) :
    ∃ i bi q, (lastN lookback df).get? i = some bi ∧ t = bi.ts ∧
      (ffill (lastN lookback atrS)).getD i none = some q ∧ q ≠ 0 := by
  unfold find_order_block at h
  split at h
  · simp at h
  · split at h
    · split at h
      · rename_i r hscan
        subst h
        obtain ⟨i, hin, hfi, -⟩ := scanDesc_some _ _ _ hscan
        obtain ⟨bi, hg, hq, hr⟩ := obCheckBull_some _ _ _ _ hfi
        obtain ⟨bi', hg', -, q, ha, hq0, -⟩ := bullQual_true_elim _ _ _ hq
        have hbb : bi' = bi := by
          rw [hg] at hg'
          exact (Option.some.inj hg').symm
        subst hbb
        rw [Prod.mk.injEq, Prod.mk.injEq, Option.some.injEq, Option.some.injEq,
          Option.some.injEq] at hr
        exact ⟨i, bi', q, hg, hr.2.2, ha, hq0⟩
      · simp at h
    · split at h
      · rename_i r hscan
        subst h
        obtain ⟨i, hin, hfi, -⟩ := scanDesc_some _ _ _ hscan
        obtain ⟨bi, hg, hq, hr⟩ := obCheckBear_some _ _ _ _ hfi
        obtain ⟨bi', hg', -, q, ha, hq0, -⟩ := bearQual_true_elim _ _ _ hq
        have hbb : bi' = bi := by
          rw [hg] at hg'
          exact (Option.some.inj hg').symm
        subst hbb
        rw [Prod.mk.injEq, Prod.mk.injEq, Option.some.injEq, Option.some.injEq,
          Option.some.injEq] at hr
        exact ⟨i, bi', q, hg, hr.2.2, ha, hq0⟩
      · simp at h

/-- C8 witness: the theorem applied to `obBars`. -/
theorem order_block_atr_nonzero_witness :
    ∃ i bi q, (lastN 30 obBars).get? i = some bi ∧ 6 = bi.ts ∧
      (ffill (lastN 30 obAtr)).getD i none = some q ∧ q ≠ 0 :=
  order_block_atr_nonzero obBars obAtr "bull" 30 5 10 6 (by with_unfolding_all rfl)


end Ztockly
